import Mathlib

/-!
Verification of the GR-Race-Guardian stochastic race-strategy engine
(`src/backend-python/grracing/`) against its natural-language specification.

The Python modules are shallowly embedded: Python floats become `ℚ`
(with the two genuinely non-rational operations — the real power
`x ** 1.5` in `TrafficDensityModel.estimate_time_lost` and the square
root inside `np.std` — taken as explicit function parameters, so every
statement proved here is universally quantified over them), Python ints
become `ℤ`, dictionaries with optional keys become structures with
`Option` fields (`none` models a missing key or an empty, hence falsy,
dictionary), and code that can raise returns `Except String`.  Calls to
`np.random` are modelled by an explicit stream `rng : ℕ → ℚ` together
with a threaded counter; each call site consumes the next stream value,
shaped by the distribution parameters appearing in the source.

Python's attribute lookup on the `TireDegradationModel` imported from
`grracing/degradation.py` is modelled explicitly by a method-name list,
because `pit_decision_engine.py` and `race_twin.py` call a method
(`calculate_degradation`) that this class does not define — the method
exists only on the class of the same name in
`grracing/models/tire_degradation.py`.
-/

/-- Python `max(lo, min(x, hi))` / `np.clip(x, lo, hi)` for finite values. -/
def pyClip (x lo hi : ℚ) : ℚ := max lo (min x hi)

/-- Python `%` (result has the sign of the divisor, here a positive one). -/
def pyMod (a b : ℤ) : ℤ := ((a % b) + b) % b

/-- Python `int(x)` on a float: truncation toward zero. -/
def pyInt (q : ℚ) : ℤ := if 0 ≤ q then ⌊q⌋ else -⌊-q⌋

/-- `np.mean` over a list (call sites in the embedded code are guarded so the
list is non-empty whenever the Python value is used). -/
def listMean (l : List ℚ) : ℚ := l.sum / (l.length : ℚ)

/-- Python `min(lap_times)` over a non-empty list. -/
def listMinQ (l : List ℚ) : ℚ :=
  match l with
  | [] => 0
  | h :: t => t.foldl min h

/-- Python `max(...)` over a non-empty list of ints. -/
def listMaxZ (l : List ℤ) : ℤ :=
  match l with
  | [] => 0
  | h :: t => t.foldl max h

/-- Python `min(...)` over a non-empty list of ints. -/
def listMinZ (l : List ℤ) : ℤ :=
  match l with
  | [] => 0
  | h :: t => t.foldl min h

/-- Python `range(a, b)` over ints. -/
def intRange (a b : ℤ) : List ℤ :=
  (List.range (b - a).toNat).map (fun i => a + (i : ℤ))

/-- Assignment `d[k] = f(d[k])` on a Python dict rendered as an association
list: every entry keeps its place, only the value at `k` changes. -/
def setEntry {β : Type} (k : String) (f : β → β) (l : List (String × β)) :
    List (String × β) :=
  l.map (fun p => if p.1 = k then (p.1, f p.2) else p)

/-- Insertion into a Python dict: a present key keeps its position and gets the
new value, a new key is appended (insertion order). -/
def dictInsert {β : Type} (k : String) (v : β) (l : List (String × β)) :
    List (String × β) :=
  if l.any (fun p => p.1 = k) then l.map (fun p => if p.1 = k then (k, v) else p)
  else l ++ [(k, v)]

/-- Dictionary lookup `d[k]`; a missing key is a `KeyError` (unreachable at the
embedded call sites, where the key always comes from the dict itself). -/
def lookupE {β : Type} (l : List (String × β)) (k : String) : Except String β :=
  match l.lookup k with
  | some v => Except.ok v
  | none => Except.error "KeyError"

/-- Python substring test `pat in s`, via `String.splitOn`. -/
def strContainsSub (s pat : String) : Bool := (s.splitOn pat).length ≠ 1

/-- Distinct elements of a list in order of first occurrence — the key order of
a Python dict or `collections.Counter` built by successive insertions. -/
def firstDedup (l : List ℕ) : List ℕ :=
  l.foldl (fun acc x => if x ∈ acc then acc else acc ++ [x]) []

/-! ## `grracing/overtake.py` — `OvertakeProbabilityModel` -/

/-- Embeds `overtake.py` lines 52-53: `(speed_delta / defender_speed) * 0.5 if
defender_speed > 0 else 0`. -/
def speed_advantage (attacker_speed defender_speed : ℚ) : ℚ :=
  if 0 < defender_speed then ((attacker_speed - defender_speed) / defender_speed) * 0.5
  else 0

/-- Embeds `overtake.py` line 56: `1.0 / abs(attacker_position -
defender_position) if attacker_position != defender_position else 0`. -/
def position_proximity (attacker_position defender_position : ℤ) : ℚ :=
  if attacker_position ≠ defender_position then
    1 / ((|attacker_position - defender_position| : ℤ) : ℚ)
  else 0

/-- Embeds `overtake.py` lines 59-60: `min(tire_age_delta / 20, 0.5)` — note
there is no lower clamp at 0 in the source. -/
def tire_age_advantage (attacker_tire_age defender_tire_age : ℤ) : ℚ :=
  min (((defender_tire_age - attacker_tire_age : ℤ) : ℚ) / 20) 0.5

/-- Embeds `overtake.py` line 63: `{'S1': 0.3, 'S2': 0.5, 'S3': 0.4}.get(sector, 0.4)`. -/
def overtake_sector_factor (sector : String) : ℚ :=
  if sector = "S1" then 0.3 else if sector = "S2" then 0.5
  else if sector = "S3" then 0.4 else 0.4

/-- Embeds `OvertakeProbabilityModel.calculate_overtake_probability`
(`overtake.py` lines 28-80). -/
def calculate_overtake_probability (attacker_speed defender_speed : ℚ)
    (attacker_position defender_position attacker_tire_age defender_tire_age : ℤ)
    (sector : String) : ℚ :=
  let probability :=
    0.1 + speed_advantage attacker_speed defender_speed * 0.4 +
      position_proximity attacker_position defender_position * 0.2 +
      tire_age_advantage attacker_tire_age defender_tire_age * 0.2 +
      overtake_sector_factor sector * 0.1
  max 0 (min 1 probability)

/-- The overtake formula exactly as claim C6 / spec §4.3 states it, written
from the spec's words for comparison with the source translation:
`clip(0.1 + 0.4·speed_advantage + 0.2·position_proximity +
0.2·tire_age_advantage + 0.1·sector_factor, 0, 1)` with
`speed_advantage = (attacker_speed − defender_speed)/defender_speed · 0.5`,
`position_proximity = 1/|Δposition|`,
`tire_age_advantage = clip((defender_age − attacker_age)/20, 0, 0.5)`,
`sector_factor ∈ {S1: 0.3, S2: 0.5, S3: 0.4}`.  (Meaningful for
`defender_speed > 0` and distinct positions, the claim's hypotheses.) -/
def spec_overtake_probability (attacker_speed defender_speed : ℚ)
    (attacker_position defender_position attacker_tire_age defender_tire_age : ℤ)
    (sector : String) : ℚ :=
  let speed_adv := ((attacker_speed - defender_speed) / defender_speed) * 0.5
  let proximity := 1 / ((|attacker_position - defender_position| : ℤ) : ℚ)
  let tire_adv := pyClip (((defender_tire_age - attacker_tire_age : ℤ) : ℚ) / 20) 0 0.5
  let sector_factor :=
    if sector = "S1" then 0.3 else if sector = "S2" then 0.5
    else if sector = "S3" then 0.4 else 0.4
  pyClip (0.1 + 0.4 * speed_adv + 0.2 * proximity + 0.2 * tire_adv +
    0.1 * sector_factor) 0 1

/-- The overtake formula amended to what the code computes: exactly the
spec's formula, except that `tire_age_advantage = min((defender_age −
attacker_age)/20, 0.5)` with no lower clamp, so it can be negative. -/
def amended_overtake_probability (attacker_speed defender_speed : ℚ)
    (attacker_position defender_position attacker_tire_age defender_tire_age : ℤ)
    (sector : String) : ℚ :=
  let speed_adv := ((attacker_speed - defender_speed) / defender_speed) * 0.5
  let proximity := 1 / ((|attacker_position - defender_position| : ℤ) : ℚ)
  let tire_adv := min (((defender_tire_age - attacker_tire_age : ℤ) : ℚ) / 20) 0.5
  let sector_factor :=
    if sector = "S1" then 0.3 else if sector = "S2" then 0.5
    else if sector = "S3" then 0.4 else 0.4
  pyClip (0.1 + 0.4 * speed_adv + 0.2 * proximity + 0.2 * tire_adv +
    0.1 * sector_factor) 0 1

/-! ## `grracing/traffic.py` — `TrafficDensityModel` -/

/-- One element of the `drivers` list handed to
`TrafficDensityModel.calculate_traffic_density` (the call sites in
`race_twin.py` always populate `position` and `sector`; `id` is never read). -/
structure TrafficCar where
  position : ℤ
  sector : String
deriving DecidableEq

/-- Embeds `TrafficDensityModel.calculate_traffic_density` (`traffic.py`
lines 23-50). -/
def calculate_traffic_density (drivers : List TrafficCar) (sector : String) : ℚ :=
  let drivers_in_sector := drivers.filter (fun d => d.sector = sector)
  let density := (drivers_in_sector.length : ℚ) / ((max drivers.length 1 : ℕ) : ℚ)
  let density :=
    if 1 < drivers_in_sector.length then
      let positions := drivers_in_sector.map (·.position)
      let position_spread := listMaxZ positions - listMinZ positions
      let proximity_factor := 1 / (1 + (position_spread : ℚ) / 5)
      density * (1 + proximity_factor)
    else density
  min 1 density

/-- Embeds `TrafficDensityModel.estimate_time_lost` (`traffic.py` lines
52-69).  `pow15` stands for the real-valued float power `x ** 1.5`, the one
non-rational operation of the module; every theorem quantifies over it. -/
def estimate_time_lost (pow15 : ℚ → ℚ) (traffic_density : ℚ) (sector : String) : ℚ :=
  let base_loss_per_sector :=
    if sector = "S1" then 0.3 else if sector = "S2" then 0.5
    else if sector = "S3" then 0.4 else 0.4
  base_loss_per_sector * pow15 traffic_density

/-! ## `grracing/weather.py` — `WeatherModel` -/

/-- A weather dictionary; `none` fields model missing keys (every read in the
sources goes through `.get` with a default). -/
structure WeatherDict where
  condition : Option String
  track_temp : Option ℚ
  ambient_temp : Option ℚ
  humidity : Option ℚ
  rainfall : Option ℚ
deriving DecidableEq

/-- Embeds `WeatherModel.determine_condition` (`weather.py` lines 36-57). -/
def determine_condition (track_temp _ambient_temp humidity rainfall : ℚ) : String :=
  if 0.5 < rainfall then "wet"
  else if 0.1 < rainfall ∨ 80 < humidity then "damp"
  else if track_temp < 15 ∨ 50 < track_temp then "mixed"
  else "dry"

/-- Embeds `WeatherModel.calculate_pace_modifier` (`weather.py` lines 59-78),
including the `base_pace_modifiers.get(condition, 1.0)` table. -/
def calculate_pace_modifier (track_temp ambient_temp humidity rainfall : ℚ) : ℚ :=
  let condition := determine_condition track_temp ambient_temp humidity rainfall
  let base_modifier :=
    if condition = "dry" then 1.0 else if condition = "wet" then 1.15
    else if condition = "damp" then 1.08 else if condition = "mixed" then 1.12
    else 1.0
  let temp_delta := |track_temp - 27.5|
  base_modifier * (1 + temp_delta * 0.002)

/-! ## `grracing/pit_rejoin.py` — `PitRejoinSimulator` -/

/-- Embeds `PitRejoinSimulator._calculate_rejoin_time_loss` (`pit_rejoin.py`
lines 97-129): `1.5 * (1 + 0.5 * traffic_density) * sector_mult` with the
sector table `{"S1": 0.8, "S2": 1.2, "S3": 1.0}.get(sector, 1.0)`. -/
def calculate_rejoin_time_loss (traffic_density : ℚ) (sector : String) : ℚ :=
  let base_rejoin_penalty : ℚ := 1.5
  let traffic_multiplier := 1 + traffic_density * 0.5
  let sector_mult :=
    if sector = "S1" then 0.8 else if sector = "S2" then 1.2
    else if sector = "S3" then 1.0 else 1.0
  base_rejoin_penalty * traffic_multiplier * sector_mult

/-- Embeds `PitRejoinSimulator._time_to_positions` (`pit_rejoin.py` lines
131-143): divide by the 1.0-second average gap, floor at 0. -/
def time_to_positions (time_lost : ℚ) : ℚ :=
  max 0 (time_lost / 1)

/-- Embeds `PitRejoinSimulator._calculate_ghost_position` (`pit_rejoin.py`
lines 145-172), with its hard-coded pit-window-open lap 15. -/
def calculate_ghost_position (current_position pit_lap : ℤ) : ℤ :=
  let laps_since_pit_window := max 0 (pit_lap - 15)
  let ghost_time_loss := (laps_since_pit_window : ℚ) * 0.1
  let ghost_positions_lost := ghost_time_loss / 1
  min (current_position + pyInt ghost_positions_lost) (current_position + 5)

/-- The `traffic_impact` dictionary returned by
`PitRejoinSimulator._calculate_traffic_impact`; `cars_ahead` is a float in the
source (it is computed from the un-truncated rejoin position). -/
structure TrafficImpactRec where
  cars_ahead : ℚ
  traffic_loss_per_lap : ℚ
  sector : String
  density : ℚ
  clear_window : Bool
deriving DecidableEq

/-- Embeds `PitRejoinSimulator._calculate_traffic_impact` (`pit_rejoin.py`
lines 174-211). -/
def calculate_traffic_impact (rejoin_position : ℚ) (traffic_density : ℚ)
    (sector : String) : TrafficImpactRec :=
  let cars_ahead := max 0 (rejoin_position - 1)
  let base_penalty : ℚ := 0.1
  let sector_mult :=
    if sector = "S1" then 0.8 else if sector = "S2" then 1.3
    else if sector = "S3" then 1.0 else 1.0
  let density_mult := 1 + traffic_density * 0.5
  let traffic_loss_per_lap := cars_ahead * base_penalty * sector_mult * density_mult
  ⟨cars_ahead, traffic_loss_per_lap, sector, traffic_density,
    decide (traffic_loss_per_lap < 0.2)⟩

/-- The dictionary returned by `PitRejoinSimulator.simulate_pit_rejoin`
(without the timestamp string). -/
structure RejoinResult where
  driver_id : String
  pit_lap : ℤ
  position_before_pit : ℤ
  rejoin_position : ℤ
  positions_lost : ℤ
  time_lost : ℚ
  ghost_position : ℤ
  traffic_impact : TrafficImpactRec
  rejoin_sector : String
deriving DecidableEq

/-- Embeds `PitRejoinSimulator.simulate_pit_rejoin` (`pit_rejoin.py` lines
28-95). -/
def simulate_pit_rejoin (driver_id : String) (current_position pit_lap : ℤ)
    (pit_time average_lap_time traffic_density : ℚ) (total_cars : ℤ)
    (sector_at_pit : String) : RejoinResult :=
  let _ := average_lap_time
  let total_time_lost := pit_time + calculate_rejoin_time_loss traffic_density sector_at_pit
  let positions_lost := time_to_positions total_time_lost
  let rejoin_position := min ((current_position : ℚ) + positions_lost) ((total_cars : ℤ) : ℚ)
  let ghost_position := calculate_ghost_position current_position pit_lap
  let traffic_impact := calculate_traffic_impact rejoin_position traffic_density sector_at_pit
  ⟨driver_id, pit_lap, current_position, pyInt rejoin_position, pyInt positions_lost,
    total_time_lost, ghost_position, traffic_impact, sector_at_pit⟩

/-! ## `grracing/degradation.py` — the `TireDegradationModel` the simulator and
the decision engine actually import -/

/-- Embeds the compound table of `grracing/degradation.py` lines 40-47 with the
`.get(compound, 0.05)` default used by `exponential_degradation`. -/
def degradation_compound_coefficient (compound : String) : ℚ :=
  if compound = "SOFT" then 0.08 else if compound = "MEDIUM" then 0.05
  else if compound = "HARD" then 0.03 else if compound = "SUPER_SOFT" then 0.10
  else if compound = "INTERMEDIATE" then 0.12 else if compound = "WET" then 0.15
  else 0.05

/-- Embeds `TireDegradationModel.exponential_degradation` (`degradation.py`
lines 59-77) with the rate defaulted from the model's compound. -/
def exponential_degradation (compound : String) (lap_number : ℤ) (base_time : ℚ) : ℚ :=
  base_time * (1 + degradation_compound_coefficient compound) ^ lap_number

/-- The method names defined on the `TireDegradationModel` class of
`grracing/degradation.py` — the class that `pit_decision_engine.py` (line 16)
and `race_twin.py` (line 14) import and instantiate.  There is no
`calculate_degradation` among them. -/
def grracing_degradation_TireDegradationModel_methods : List String :=
  ["__init__", "exponential_degradation", "linear_degradation",
   "temperature_adjusted_degradation", "fit_degradation_curve",
   "predict_stint_degradation", "calculate_pit_window"]

/-! ## `grracing/models/tire_degradation.py` — the only `calculate_degradation`
in the repository -/

/-- Embeds `TireDegradationModel.calculate_degradation` of
`grracing/models/tire_degradation.py` (lines 187-215): `min(rate * tire_age,
0.1)` with `rate = 0.002 * compound_mult * (1 + (track_temp - 25) * 0.01)`. -/
def models_calculate_degradation (tire_age : ℤ) (compound : String)
    (track_temp : ℚ) : ℚ :=
  let base_rate : ℚ := 0.002
  let compound_mult :=
    if compound = "SOFT" then 1.5 else if compound = "MEDIUM" then 1.0
    else if compound = "HARD" then 0.7 else 1.0
  let rate := base_rate * compound_mult
  let rate := rate * (1 + (track_temp - 25) * 0.01)
  min (rate * (tire_age : ℚ)) 0.1

/-- Python's attribute lookup for the `calculate_degradation` call made by the
engine and the simulator: it resolves against the method list of the imported
`grracing/degradation.py` class, where the name is absent, so the lookup
yields `none` (an `AttributeError` at the call site).  Had the intended class
been imported, it would resolve to `models_calculate_degradation`, the only
implementation of that name in the repository. -/
def resolved_calculate_degradation : Option (ℤ → String → ℚ → ℚ) :=
  if "calculate_degradation" ∈ grracing_degradation_TireDegradationModel_methods
  then some models_calculate_degradation
  else none

/-! ## `grracing/race_twin.py` — `RaceTwinSimulator` -/

/-- Embeds the `num_simulations` clamp of `RaceTwinSimulator.__init__`
(`race_twin.py` lines 30-31): `max(100, min(num_simulations, 500))`. -/
def race_twin_num_simulations (num_simulations : ℤ) : ℤ :=
  max 100 (min num_simulations 500)

/-- The `degradation_profile` sub-dictionary of a driver twin, as read by the
simulator and the decision engine (`.get` with defaults everywhere). -/
structure DegProfileRec where
  rate : Option ℚ
  base_pace : Option ℚ
deriving DecidableEq

/-- The driver-twin dictionary fields the simulator reads; `none` models a
missing key. -/
structure TwinRec where
  pace_vector : Option ℚ
  consistency_index : Option ℚ
  degradation_profile : Option DegProfileRec
deriving DecidableEq

/-- One input driver record of `RaceTwinSimulator._simulate_single_race`
(the fields its `race_state` initializer reads, each through `.get`). -/
structure DriverRec where
  id : String
  position : Option ℤ
  tire_age : Option ℤ
  tire_compound : Option String
deriving DecidableEq

/-- One entry of `pit_strategy_options` (`race_twin.py` lines 284-289). -/
structure StrategyRec where
  driver_id : Option String
  planned_pits : List ℤ
deriving DecidableEq

/-- The pit-stop dictionary produced by `RaceTwinSimulator._simulate_pit_stop`. -/
structure PitStopRec where
  lap : ℤ
  pit_time : ℚ
  new_compound : String
  old_compound : String
  rejoin_position : ℤ
  positions_lost : ℤ
  time_lost : ℚ
  traffic_impact : TrafficImpactRec
deriving DecidableEq

/-- The per-driver `race_state` dictionary of
`RaceTwinSimulator._simulate_single_race` (`race_twin.py` lines 126-138).
`twin` is `driver_twins.get(driver['id'])`, hence an `Option`. -/
structure RaceStateRec where
  driver_id : String
  position : ℤ
  lap_times : List ℚ
  pit_stops : List PitStopRec
  tire_age : ℤ
  tire_compound : String
  total_time : ℚ
  twin : Option TwinRec
deriving DecidableEq

/-- The `SimulationResult` dictionary returned by a single Monte Carlo
iteration (`race_twin.py` lines 197-201). -/
structure SimResult where
  finishing_order : List String
  pit_stops : List (String × List PitStopRec)
  total_times : List (String × ℚ)
deriving DecidableEq

/-- Reading an attribute off a twin that is `None` (a driver id absent from
`driver_twins`) is Python's `AttributeError` on `NoneType`. -/
def getTwin (t : Option TwinRec) : Except String TwinRec :=
  match t with
  | some tw => Except.ok tw
  | none => Except.error "AttributeError: NoneType object has no attribute get"

/-- `['S1', 'S2', 'S3'][(lap - 1) % 3]` (`race_twin.py` lines 255 and 397). -/
def sectorOfLap (lap : ℤ) : String :=
  if pyMod (lap - 1) 3 = 0 then "S1" else if pyMod (lap - 1) 3 = 1 then "S2" else "S3"

/-- Embeds `RaceTwinSimulator._calculate_traffic_penalty` (`race_twin.py`
lines 415-457).  Consumes one `np.random.uniform(-0.02, 0.08)` draw, modelled
as `-0.02 + 0.1 * u` for the next stream value `u`, but only on the
`cars_ahead != 0` path, as in the source. -/
def calculate_traffic_penalty (pow15 : ℚ → ℚ) (rng : ℕ → ℚ) (k : ℕ)
    (position : ℤ) (drivers : List (String × RaceStateRec)) (sector : String) :
    ℚ × ℕ :=
  let cars_ahead := position - 1
  if cars_ahead = 0 then (0, k)
  else
    let driver_list := drivers.map (fun p => TrafficCar.mk p.2.position sector)
    let traffic_density := calculate_traffic_density driver_list sector
    let time_lost := estimate_time_lost pow15 traffic_density sector
    let position_penalty := (cars_ahead : ℚ) * 0.05
    let total_penalty := time_lost + position_penalty
    let total_penalty := total_penalty + (-0.02 + 0.1 * rng k)
    (max total_penalty 0, k + 1)

/-- Embeds `RaceTwinSimulator._calculate_lap_time` (`race_twin.py` lines
203-270), including the dead store of `degradation_factor` present in the
source.  The Gaussian noise `np.random.normal(0, variance)` is modelled as
`variance * z` for the next stream value `z`. -/
def calculate_lap_time (pow15 : ℚ → ℚ) (rng : ℕ → ℚ) (k : ℕ)
    (state : RaceStateRec) (lap : ℤ) (weather_data : Option WeatherDict)
    (drivers : List (String × RaceStateRec)) : Except String (ℚ × ℕ) :=
  match getTwin state.twin with
  | Except.error e => Except.error e
  | Except.ok twin =>
    let base_pace := twin.pace_vector.getD 0
    let base_lap_time : ℚ := 95
    let adjusted_time := base_lap_time * (1 + base_pace)
    let tire_age := state.tire_age
    let tire_compound := state.tire_compound
    let base_pace2 := (twin.degradation_profile.bind (·.base_pace)).getD adjusted_time
    let degraded_time := exponential_degradation tire_compound tire_age base_pace2
    let _degradation_factor :=
      if 0 < base_pace2 then (degraded_time - base_pace2) / base_pace2
      else (tire_age : ℚ) * 0.002
    let adjusted_time := degraded_time
    let adjusted_time :=
      match weather_data with
      | some w =>
        adjusted_time * calculate_pace_modifier (w.track_temp.getD 25)
          (w.ambient_temp.getD 25) (w.humidity.getD 50) (w.rainfall.getD 0)
      | none => adjusted_time
    let sector := sectorOfLap lap
    let penalty_k :=
      calculate_traffic_penalty pow15 rng k state.position drivers sector
    let adjusted_time := adjusted_time + penalty_k.1
    let consistency := twin.consistency_index.getD 0.8
    let variance := (1 - consistency) * 0.5
    let random_factor := variance * rng penalty_k.2
    let adjusted_time := adjusted_time + random_factor
    Except.ok (max adjusted_time 90, penalty_k.2 + 1)

/-- Embeds `RaceTwinSimulator._should_pit` (`race_twin.py` lines 272-309).
The strategy-constraint scan returns before the twin is touched, as in the
source; the 10% chance draw is consumed only when `tire_age > 25`. -/
def should_pit (rng : ℕ → ℚ) (k : ℕ) (driver_id : String) (state : RaceStateRec)
    (lap total_laps : ℤ) (pit_strategy_options : List StrategyRec) :
    Except String (Bool × ℕ) :=
  if pit_strategy_options.any
      (fun s => s.driver_id = some driver_id ∧ lap ∈ s.planned_pits) then
    Except.ok (true, k)
  else
    let tire_age := state.tire_age
    match getTwin state.twin with
    | Except.error e => Except.error e
    | Except.ok twin =>
      let degradation_rate := (twin.degradation_profile.bind (·.rate)).getD 0.002
      let critical_age : ℤ := if degradation_rate < 0.003 then 20 else 15
      if critical_age ≤ tire_age ∧ 10 ≤ total_laps - lap then Except.ok (true, k)
      else if 25 < tire_age then Except.ok (decide (rng k < 0.1), k + 1)
      else Except.ok (false, k)

/-- Embeds `RaceTwinSimulator._simulate_pit_stop` (`race_twin.py` lines
311-366).  `np.random.uniform(-2, 2)` is modelled as `-2 + 4 * u`, the 70%
harder-compound chance as `u < 0.7`, for successive stream values. -/
def simulate_pit_stop (rng : ℕ → ℚ) (k : ℕ) (state : RaceStateRec) (lap : ℤ)
    (drivers : List (String × RaceStateRec)) (total_cars : ℤ) : PitStopRec × ℕ :=
  let base_pit_time : ℚ := 22
  let pit_time_variance := -2 + 4 * rng k
  let total_pit_time := base_pit_time + pit_time_variance
  let current_compound := state.tire_compound
  let current_idx : ℕ :=
    if current_compound = "SOFT" then 0 else if current_compound = "MEDIUM" then 1
    else if current_compound = "HARD" then 2 else 1
  let new_idx := if rng (k + 1) < 0.7 then min (current_idx + 1) 2 else current_idx
  let new_compound := (["SOFT", "MEDIUM", "HARD"].getD new_idx "MEDIUM")
  let current_position := state.position
  let average_lap_time :=
    listMean (drivers.map (fun p =>
      if p.2.lap_times.isEmpty then 95 else p.2.lap_times.getLastD 95))
  let driver_list := drivers.map (fun p => TrafficCar.mk p.2.position "S2")
  let traffic_density := calculate_traffic_density driver_list "S2"
  let rejoin_result := simulate_pit_rejoin state.driver_id current_position lap
    total_pit_time average_lap_time traffic_density total_cars "S2"
  (⟨lap, total_pit_time, new_compound, current_compound,
    rejoin_result.rejoin_position, rejoin_result.positions_lost,
    rejoin_result.time_lost, rejoin_result.traffic_impact⟩, k + 2)

/-- Embeds `RaceTwinSimulator._simulate_overtakes` (`race_twin.py` lines
368-413): at most one attempt against the first driver found directly ahead;
the tuple swap writes the values captured before the assignment. -/
def simulate_overtakes (rng : ℕ → ℚ) (k : ℕ) (driver_id : String)
    (all_states : List (String × RaceStateRec)) (lap : ℤ) :
    Except String (List (String × RaceStateRec) × ℕ) :=
  match lookupE all_states driver_id with
  | Except.error e => Except.error e
  | Except.ok state =>
    if state.position = 1 then Except.ok (all_states, k)
    else
      match all_states.find? (fun p => p.2.position = state.position - 1) with
      | none => Except.ok (all_states, k)
      | some ahead =>
        match getTwin state.twin with
        | Except.error e => Except.error e
        | Except.ok twin =>
          match getTwin ahead.2.twin with
          | Except.error e => Except.error e
          | Except.ok ahead_twin =>
            let base_speed : ℚ := 150
            let attacker_speed := base_speed * (1 - twin.pace_vector.getD 0 * 2)
            let defender_speed := base_speed * (1 - ahead_twin.pace_vector.getD 0 * 2)
            let sector := sectorOfLap lap
            let overtake_prob := calculate_overtake_probability attacker_speed
              defender_speed state.position (state.position - 1) state.tire_age
              ahead.2.tire_age sector
            if rng k < overtake_prob then
              Except.ok
                (setEntry driver_id (fun s => { s with position := ahead.2.position })
                  (setEntry ahead.1 (fun s => { s with position := state.position })
                    all_states), k + 1)
            else Except.ok (all_states, k + 1)

/-- The state mutations of `race_twin.py` lines 151-153: append the lap
time, add it to the total, age the tires. -/
def apply_lap_time (lap_time : ℚ) (s : RaceStateRec) : RaceStateRec :=
  { s with lap_times := s.lap_times ++ [lap_time],
           total_time := s.total_time + lap_time,
           tire_age := s.tire_age + 1 }

/-- The state mutations of the `if should_pit` block (`race_twin.py` lines
171-178). -/
def apply_pit_result (ps : PitStopRec) (s : RaceStateRec) : RaceStateRec :=
  { s with pit_stops := s.pit_stops ++ [ps],
           total_time := s.total_time + ps.pit_time,
           tire_age := 0,
           tire_compound := ps.new_compound,
           position := ps.rejoin_position }

/-- The pit branch of the driver step: simulate the stop and apply it when
`sp` holds, otherwise leave the states untouched. -/
def step_driver_pit (rng : ℕ → ℚ) (driver_id : String) (sp : Bool) (k2 : ℕ)
    (state1 : RaceStateRec) (lap : ℤ) (states1 : List (String × RaceStateRec))
    (total_cars : ℤ) : List (String × RaceStateRec) × ℕ :=
  if sp then
    let ps := simulate_pit_stop rng k2 state1 lap states1 total_cars
    (setEntry driver_id (apply_pit_result ps.1) states1, ps.2)
  else (states1, k2)

/-- The tail of the driver step after the lap-time update: the dead-store
`calculate_degradation` attribute call (which errors when the attribute is
unresolved, exactly where the source calls it — after the lap-time update,
before the pit logic), then the pit decision and the overtake attempt. -/
def step_driver_rest (calcDeg : Option (ℤ → String → ℚ → ℚ)) (rng : ℕ → ℚ)
    (total_laps : ℤ) (weather_data : Option WeatherDict)
    (pit_strategy_options : List StrategyRec) (total_cars : ℤ) (lap : ℤ)
    (driver_id : String) (states1 : List (String × RaceStateRec)) (k1 : ℕ) :
    Except String (List (String × RaceStateRec) × ℕ) :=
  match lookupE states1 driver_id with
  | Except.error e => Except.error e
  | Except.ok state1 =>
    match calcDeg with
    | none =>
      Except.error
        "AttributeError: TireDegradationModel object has no attribute calculate_degradation"
    | some f =>
      let track_temp :=
        match weather_data with
        | some w => w.track_temp.getD 25
        | none => (25 : ℚ)
      let _degradation := f state1.tire_age state1.tire_compound track_temp
      match should_pit rng k1 driver_id state1 lap total_laps pit_strategy_options with
      | Except.error e => Except.error e
      | Except.ok (sp, k2) =>
        let pit_step := step_driver_pit rng driver_id sp k2 state1 lap states1 total_cars
        simulate_overtakes rng pit_step.2 driver_id pit_step.1 lap

/-- The body of the inner `for driver_id, state in race_state.items()` loop
of `_simulate_single_race` (`race_twin.py` lines 143-181): lap-time update,
the dead-store `calculate_degradation` call, pit decision and overtakes.
`calcDeg` is the resolution of that attribute; `none` — the actual
resolution, the method being absent from the imported class — raises
`AttributeError` at the call site. -/
def step_driver (calcDeg : Option (ℤ → String → ℚ → ℚ)) (pow15 : ℚ → ℚ)
    (rng : ℕ → ℚ) (total_laps : ℤ) (weather_data : Option WeatherDict)
    (pit_strategy_options : List StrategyRec) (total_cars : ℤ) (lap : ℤ)
    (acc : List (String × RaceStateRec) × ℕ) (driver_id : String) :
    Except String (List (String × RaceStateRec) × ℕ) :=
  match lookupE acc.1 driver_id with
  | Except.error e => Except.error e
  | Except.ok state =>
    match calculate_lap_time pow15 rng acc.2 state lap weather_data acc.1 with
    | Except.error e => Except.error e
    | Except.ok (lap_time, k1) =>
      step_driver_rest calcDeg rng total_laps weather_data pit_strategy_options
        total_cars lap driver_id
        (setEntry driver_id (apply_lap_time lap_time) acc.1) k1

/-- One lap of `_simulate_single_race`: the driver loop followed by the
re-ranking by cumulative time (`race_twin.py` lines 183-189).  Python's
`sorted` is stable, hence the stable `List.insertionSort`; the rank
assignments change only the `position` values, dict order is untouched. -/
def step_lap (calcDeg : Option (ℤ → String → ℚ → ℚ)) (pow15 : ℚ → ℚ)
    (rng : ℕ → ℚ) (total_laps : ℤ) (weather_data : Option WeatherDict)
    (pit_strategy_options : List StrategyRec) (total_cars : ℤ)
    (keyList : List String) (acc : List (String × RaceStateRec) × ℕ) (lap : ℤ) :
    Except String (List (String × RaceStateRec) × ℕ) :=
  match keyList.foldlM
      (step_driver calcDeg pow15 rng total_laps weather_data pit_strategy_options
        total_cars lap) acc with
  | Except.error e => Except.error e
  | Except.ok (states, k) =>
    let sorted_drivers :=
      states.insertionSort (fun a b => a.2.total_time ≤ b.2.total_time)
    let sorted_keys := sorted_drivers.map Prod.fst
    let ranked := states.map (fun p =>
      (p.1, { p.2 with position := ((sorted_keys.indexOf p.1 : ℕ) : ℤ) + 1 }))
    Except.ok (ranked, k)

/-- The initial per-driver state of an iteration (`race_twin.py` lines
126-138), with the `.get` defaults of the source. -/
def initRaceState (driver : DriverRec) (driver_twins : List (String × TwinRec)) :
    RaceStateRec :=
  ⟨driver.id, driver.position.getD 0, [], [], driver.tire_age.getD 0,
    driver.tire_compound.getD "MEDIUM", 0, driver_twins.lookup driver.id⟩

/-- The `race_state` dict comprehension: later duplicate ids overwrite in
place, new ids append (Python dict insertion order). -/
def initRaceStates (drivers : List DriverRec)
    (driver_twins : List (String × TwinRec)) : List (String × RaceStateRec) :=
  drivers.foldl (fun acc d => dictInsert d.id (initRaceState d driver_twins) acc) []

/-- Embeds `RaceTwinSimulator._simulate_single_race` (`race_twin.py` lines
111-201): the lap loop from `current_lap` to `total_laps`, then the final
sort by total time producing `finishing_order`, `pit_stops` and
`total_times`. -/
def simulate_single_race (calcDeg : Option (ℤ → String → ℚ → ℚ))
    (pow15 : ℚ → ℚ) (rng : ℕ → ℚ) (drivers : List DriverRec)
    (driver_twins : List (String × TwinRec)) (total_laps current_lap : ℤ)
    (weather_data : Option WeatherDict)
    (pit_strategy_options : List StrategyRec) : Except String SimResult :=
  let race_state := initRaceStates drivers driver_twins
  let keyList := race_state.map Prod.fst
  let laps := intRange current_lap (total_laps + 1)
  match laps.foldlM
      (step_lap calcDeg pow15 rng total_laps weather_data pit_strategy_options
        (drivers.length : ℤ) keyList) (race_state, 0) with
  | Except.error e => Except.error e
  | Except.ok (final_state, _) =>
    let final_positions :=
      final_state.insertionSort (fun a b => a.2.total_time ≤ b.2.total_time)
    Except.ok
      ⟨final_positions.map Prod.fst,
        final_state.map (fun p => (p.1, p.2.pit_stops)),
        final_state.map (fun p => (p.1, p.2.total_time))⟩

/-! ## `grracing/driver_twin.py` — `DriverTwinGenerator` -/

/-- `np.percentile` with the default linear interpolation, over a non-empty
list: sort, take rank `(n-1)*p/100`, interpolate between the neighbours. -/
def np_percentile (l : List ℚ) (p : ℚ) : ℚ :=
  let s := l.insertionSort (· ≤ ·)
  let h := ((s.length : ℚ) - 1) * p / 100
  let i := (⌊h⌋).toNat
  let frac := h - (i : ℚ)
  if i + 1 < s.length then s.getD i 0 + frac * (s.getD (i + 1) 0 - s.getD i 0)
  else s.getD i 0

/-- `np.var`: the population variance, mean of squared deviations. -/
def np_var (l : List ℚ) : ℚ :=
  let m := listMean l
  listMean (l.map (fun t => (t - m) ^ 2))

/-- Embeds `DriverTwinGenerator._calculate_pace_vector` (`driver_twin.py`
lines 80-98).  The division `(avg_lap - best_lap) / best_lap` is a numpy
float division: with `best_lap = 0` it yields `±inf` (which `np.clip` maps to
the interval bound) when the numerator is nonzero, and `NaN` (which `np.clip`
propagates) when the numerator is zero as well.  `none` models that `NaN`. -/
def calc_pace_vector (lap_times : List ℚ) : Option ℚ :=
  if lap_times.isEmpty ∨ lap_times.length < 2 then some 0
  else
    let best_lap := listMinQ lap_times
    let avg_lap := listMean lap_times
    if best_lap = 0 then
      if avg_lap - best_lap = 0 then none
      else some (pyClip (if 0 < avg_lap - best_lap then (1 : ℚ) / 10 else -(1 / 10))
        (-(1 / 10)) (1 / 10))
    else some (pyClip ((avg_lap - best_lap) / best_lap) (-(1 / 10)) (1 / 10))

/-- Embeds `DriverTwinGenerator._calculate_consistency_index`
(`driver_twin.py` lines 100-145): IQR outlier removal for 5 or more samples,
then `clip(1 - std/mean, 0, 1)`.  `sqrtFn` stands for the square root inside
`np.std`; the bounds proved below hold for every choice of it.  The filter
step (lines 122-133) — kept samples and their mean, reassigned only when at
least 2 samples survive — is split out as `consistency_iqr_filter`. -/
def consistency_iqr_filter (lap_times : List ℚ) : List ℚ × ℚ :=
  if 5 ≤ lap_times.length then
    let q1 := np_percentile lap_times 25
    let q3 := np_percentile lap_times 75
    let iqr := q3 - q1
    let lower_bound := q1 - 1.5 * iqr
    let upper_bound := q3 + 1.5 * iqr
    let filtered := lap_times.filter
      (fun t => decide (lower_bound ≤ t) && decide (t ≤ upper_bound))
    if 1 < filtered.length then (filtered, listMean filtered)
    else (lap_times, listMean lap_times)
  else (lap_times, listMean lap_times)

/-- The coefficient-of-variation consistency score of `driver_twin.py` lines
113-145, on top of `consistency_iqr_filter`. -/
def calc_consistency_index (sqrtFn : ℚ → ℚ) (lap_times : List ℚ) : ℚ :=
  if lap_times.isEmpty ∨ lap_times.length < 2 then 0.7
  else
    let mean_lap := listMean lap_times
    if mean_lap = 0 then 0.7
    else
      let filtered := consistency_iqr_filter lap_times
      let std_dev := sqrtFn (np_var filtered.1)
      let coefficient_of_variation :=
        if 0 < filtered.2 then std_dev / filtered.2 else 0
      pyClip (1 - coefficient_of_variation) 0 1

/-- Embeds `DriverTwinGenerator._calculate_confidence` (`driver_twin.py`
lines 517-530), the lap-count step function. -/
def calc_twin_confidence (lap_count : ℕ) : ℚ :=
  if lap_count < 5 then 0.5
  else if lap_count < 10 then 0.7
  else if lap_count < 20 then 0.85
  else 0.95

/-- Embeds the compound table of `driver_twin.py` lines 329-334 with its
`.get(tire_compound, 1.0)` default. -/
def twin_compound_multiplier (tire_compound : String) : ℚ :=
  if tire_compound = "SOFT" then 1.5 else if tire_compound = "MEDIUM" then 1.0
  else if tire_compound = "HARD" then 0.7 else 1.0

/-- Embeds the `rate` field of
`DriverTwinGenerator._calculate_degradation_profile` (`driver_twin.py` lines
235-346).  The scipy `curve_fit` attempt (exponential for 5 or more laps,
linear otherwise, both rate-bounded to `[0, 0.01]`) is a numerical solver and
is abstracted as `fit`: `some r` is a convergent fit returning rate `r`,
`none` is the raised-exception path, whose closed-form fallback (lines
314-322) is translated literally.  Lines 325-334 — clamp to `[0, 0.01]`
first, multiply by the compound factor after — are the subject of claim C5
and are translated exactly. -/
def calc_degradation_profile_rate (lap_times : List ℚ) (tire_compound : String)
    (fit : Option ℚ) : ℚ :=
  if lap_times.length < 3 then 0.002
  else
    let base_pace := listMean (lap_times.take 3)
    let degradation_rate :=
      match fit with
      | some r => r
      | none =>
        let r :=
          if 5 ≤ lap_times.length then
            let recent_laps := lap_times.drop (lap_times.length - 5)
            let early_laps := lap_times.take 5
            (listMean recent_laps - listMean early_laps) /
              (base_pace * (lap_times.length : ℚ))
          else
            (lap_times.getLastD 0 - lap_times.headD 0) /
              (base_pace * (lap_times.length : ℚ))
        max 0 (min r 0.01)
    let degradation_rate := max 0 degradation_rate
    let degradation_rate := min degradation_rate 0.01
    degradation_rate * twin_compound_multiplier tire_compound

/-- The three fields of the generated twin that claim C7 constrains. -/
structure DriverTwinCore where
  pace_vector : Option ℚ
  consistency_index : ℚ
  confidence : ℚ
deriving DecidableEq

/-- Embeds `DriverTwinGenerator.generate_driver_twin` (`driver_twin.py` lines
33-78) projected onto the fields claim C7 constrains: fewer than 5 laps
yields the default twin (`pace_vector = 0`, `consistency = 0.7`,
`confidence = 0.5`, lines 532-561), otherwise the per-field calculators
run. -/
def generate_driver_twin_core (sqrtFn : ℚ → ℚ) (lap_times : List ℚ) :
    DriverTwinCore :=
  if lap_times.length < 5 then ⟨some 0, 0.7, 0.5⟩
  else
    ⟨calc_pace_vector lap_times,
      calc_consistency_index sqrtFn lap_times,
      calc_twin_confidence lap_times.length⟩

/-! ## `grracing/pit_decision_engine.py` — `AdvancedPitDecisionEngine` -/

/-- The degradation-factor dictionary of
`AdvancedPitDecisionEngine._analyze_degradation_factor`, restricted to the
fields later code reads (the prediction list and explanation strings are
output-only). -/
structure DegFactor where
  weight : ℚ
  score : ℚ
  urgency : String
  current_degradation : ℚ
  degradation_rate : ℚ
  tire_age : ℤ
deriving DecidableEq

/-- Embeds `AdvancedPitDecisionEngine._analyze_degradation_factor`
(`pit_decision_engine.py` lines 151-217), given a resolution `calcDeg` of the
`calculate_degradation` call (the class constructed at line 162 is handed the
compound; `track_temp` keeps its default 25).  The driver-twin adjustment
(lines 200-203) only raises the score, never the urgency. -/
def analyze_degradation_factor (calcDeg : ℤ → String → ℚ → ℚ) (tire_age : ℤ)
    (tire_compound : String) (degradation_rate : ℚ) (current_lap total_laps : ℤ)
    (driver_twin : Option TwinRec) : DegFactor :=
  let _ := (current_lap, total_laps)
  let current_degradation := calcDeg tire_age tire_compound 25
  let predicted_degradation :=
    (List.range 5).map (fun j => calcDeg (tire_age + ((j : ℤ) + 1)) tire_compound 25)
  let critical_threshold : ℚ := 0.05
  let warning_threshold : ℚ := 0.03
  let urgency_score : String × ℚ :=
    if critical_threshold ≤ current_degradation then ("critical", 0.9)
    else if warning_threshold ≤ current_degradation then ("high", 0.7)
    else if (predicted_degradation.take 3).any
        (fun d => decide (critical_threshold ≤ d)) then ("medium", 0.5)
    else ("low", 0.2)
  let score :=
    match driver_twin with
    | some tw =>
      match tw.degradation_profile with
      | some profile =>
        if degradation_rate < profile.rate.getD 0 then min 1 (urgency_score.2 + 0.1)
        else urgency_score.2
      | none => urgency_score.2
    | none => urgency_score.2
  ⟨0.35, score, urgency_score.1, current_degradation, degradation_rate, tire_age⟩

/-- One entry of the predicted `traffic_window` of
`_analyze_traffic_factor`: the stored (clamped) density and the `clear` flag
computed from the unclamped value, as in the source. -/
structure TrafficWindowEntry where
  lap : ℤ
  predicted_density : ℚ
  clear : Bool
deriving DecidableEq

/-- The traffic-factor dictionary, restricted to the fields later code
reads. -/
structure TrafficFactor where
  weight : ℚ
  score : ℚ
  traffic_level : String
  clear_window_now : Bool
  best_window_lap : Option ℤ
deriving DecidableEq

/-- Python `min(list, key=...)` keeps the first minimiser. -/
def minByDensity (l : List TrafficWindowEntry) : TrafficWindowEntry :=
  match l with
  | [] => ⟨0, 0, false⟩
  | h :: t => t.foldl (fun best w =>
      if w.predicted_density < best.predicted_density then w else best) h

/-- Embeds `AdvancedPitDecisionEngine._analyze_traffic_factor`
(`pit_decision_engine.py` lines 219-277).  Note the `/ total_laps` in the
progress estimate: the Lean convention `q / 0 = 0` stands in for Python's
`ZeroDivisionError` at `total_laps = 0`, so theorems about the factor carry a
`total_laps ≠ 0` hypothesis. -/
def analyze_traffic_factor (current_position : ℤ) (traffic_density : ℚ)
    (current_lap total_laps : ℤ) : TrafficFactor :=
  let _cars_ahead := max 0 (current_position - 1)
  let level_clear_score : String × Bool × ℚ :=
    if 0.7 ≤ traffic_density then ("heavy", false, 0.3)
    else if 0.4 ≤ traffic_density then ("moderate", false, 0.5)
    else ("light", true, 0.8)
  let traffic_window :=
    (List.range 5).map (fun j =>
      let lap := current_lap + ((j : ℤ) + 1)
      let progress := (lap : ℚ) / (total_laps : ℚ)
      let predicted_density := traffic_density * (1 - progress * 0.2)
      TrafficWindowEntry.mk lap (max 0 (min 1 predicted_density))
        (decide (predicted_density < 0.4)))
  let best_window := minByDensity traffic_window
  ⟨0.25, level_clear_score.2.2, level_clear_score.1, level_clear_score.2.1,
    if best_window.clear then some best_window.lap else none⟩

/-- The `optimal_window` sub-dictionary of a race twin's
`pit_recommendations` (`start`/`end` keys; `end` is a Lean keyword, hence the
field names). -/
structure WindowDict where
  window_start : Option ℤ
  window_end : Option ℤ
deriving DecidableEq

/-- The `pit_recommendations` dictionary of a race twin. -/
structure PitRecsDict where
  optimal_window : Option WindowDict
deriving DecidableEq

/-- The `undercut_outcomes` dictionary of a race twin. -/
structure UndercutDict where
  viable : Option Bool
  time_gain : Option ℚ
deriving DecidableEq

/-- The `tire_cliff_prediction` dictionary of a race twin. -/
structure CliffDict where
  critical : Option Bool
  lap : Option ℤ
deriving DecidableEq

/-- The `traffic_simulation` dictionary of a race twin. -/
structure TrafficSimDict where
  clear_window : Option Bool
deriving DecidableEq

/-- The race-twin snapshot consumed by `_analyze_race_twin_factor`; a `none`
sub-dictionary models a missing key (its `.get(..., {})` default is falsy and
skips the block, exactly as an absent key does). -/
structure RaceTwinDict where
  pit_recommendations : Option PitRecsDict
  undercut_outcomes : Option UndercutDict
  tire_cliff_prediction : Option CliffDict
  traffic_simulation : Option TrafficSimDict
deriving DecidableEq

/-- The shared shape of the race-twin, opponent and weather factor
dictionaries: score, weight, and the `available` flag the confidence
multiplier counts. -/
structure SimpleFactor where
  weight : ℚ
  score : ℚ
  available : Bool
deriving DecidableEq

/-- Embeds `AdvancedPitDecisionEngine._analyze_race_twin_factor`
(`pit_decision_engine.py` lines 279-360): neutral 0.5 and
`available = False` without a race twin, otherwise the four sequential score
adjustments of the source. -/
def analyze_race_twin_factor (race_twin : Option RaceTwinDict)
    (current_lap : ℤ) : SimpleFactor :=
  match race_twin with
  | none => ⟨0.20, 0.5, false⟩
  | some rt =>
    let score : ℚ := 0.5
    let score :=
      match rt.pit_recommendations with
      | none => score
      | some pr =>
        let window_start := (pr.optimal_window.bind (·.window_start)).getD current_lap
        let window_end := (pr.optimal_window.bind (·.window_end)).getD (current_lap + 10)
        if window_start ≤ current_lap ∧ current_lap ≤ window_end then 0.8
        else if current_lap < window_start then 0.4
        else 0.3
    let score :=
      match rt.undercut_outcomes with
      | none => score
      | some uo =>
        if uo.viable.getD false then
          let time_gain := uo.time_gain.getD 0
          if 2 < time_gain then 0.9
          else if 1 < time_gain then 0.7
          else score
        else score
    let score :=
      match rt.tire_cliff_prediction with
      | none => score
      | some tc =>
        if tc.critical.getD false then
          let cliff_lap := tc.lap.getD (current_lap + 20)
          if cliff_lap - current_lap ≤ 3 then max score 0.9 else score
        else score
    let score :=
      match rt.traffic_simulation with
      | none => score
      | some ts => if ts.clear_window.getD false then min 1 (score + 0.1) else score
    ⟨0.20, score, true⟩

/-- One opponent dictionary; the `Option` wrapping at the use site models an
empty dictionary, which is falsy at the `if not closest_opponent` check. -/
structure OpponentDict where
  gap : Option ℚ
  tire_age : Option ℤ
  just_pitted : Option Bool
deriving DecidableEq

/-- Python's scan `if gap < min_gap` starting from `inf`: the first opponent
with strictly minimal `abs(gap)` wins. -/
def closestOpponent (l : List (Option OpponentDict)) : Option OpponentDict :=
  match l with
  | [] => none
  | o :: rest =>
    (rest.foldl (fun best o2 =>
      let g2 := |((o2.bind (·.gap)).getD 0)|
      if g2 < best.2 then (o2, g2) else best)
      (o, |((o.bind (·.gap)).getD 0)|)).1

/-- Embeds `AdvancedPitDecisionEngine._analyze_opponent_factor`
(`pit_decision_engine.py` lines 362-425). -/
def analyze_opponent_factor (opponent_data : Option (List (Option OpponentDict)))
    (tire_age : ℤ) : SimpleFactor :=
  match opponent_data with
  | none => ⟨0.10, 0.5, false⟩
  | some l =>
    if l.isEmpty then ⟨0.10, 0.5, false⟩
    else
      match closestOpponent l with
      | none => ⟨0.10, 0.5, false⟩
      | some co =>
        let opponent_tire_age := co.tire_age.getD tire_age
        let tire_age_delta := tire_age - opponent_tire_age
        let score : ℚ := 0.5
        let score :=
          if tire_age_delta < -5 then 0.3
          else if 5 < tire_age_delta then 0.8
          else score
        let score := if co.just_pitted.getD false then 0.7 else score
        ⟨0.10, score, true⟩

/-- Embeds `AdvancedPitDecisionEngine._analyze_weather_factor`
(`pit_decision_engine.py` lines 427-470), including the lower-cased substring
checks for rain. -/
def analyze_weather_factor (weather_data : Option WeatherDict) : SimpleFactor :=
  match weather_data with
  | none => ⟨0.10, 0.5, false⟩
  | some w =>
    let condition := (w.condition.getD "dry").toLower
    let score : ℚ := 0.5
    let score :=
      if strContainsSub condition "rain" ∨ strContainsSub condition "wet" then 0.4
      else if condition = "dry" then 0.5
      else score
    let track_temp := w.track_temp.getD 25
    let score :=
      if 35 < track_temp then min 1 (score + 0.2)
      else if track_temp < 15 then max 0 (score - 0.1)
      else score
    ⟨0.10, score, true⟩

/-- Embeds `AdvancedPitDecisionEngine._calculate_confidence_score`
(`pit_decision_engine.py` lines 472-504): the degradation and traffic
dictionaries carry no `available` key, so their `.get("available", True)`
contributes `True`. -/
def calculate_confidence_score (degradation_factor : DegFactor)
    (traffic_factor : TrafficFactor)
    (race_twin_factor opponent_factor weather_factor : SimpleFactor) : ℚ :=
  let total_score :=
    degradation_factor.score * degradation_factor.weight +
    traffic_factor.score * traffic_factor.weight +
    race_twin_factor.score * race_twin_factor.weight +
    opponent_factor.score * opponent_factor.weight +
    weather_factor.score * weather_factor.weight
  let available_factors : ℕ :=
    2 + (if race_twin_factor.available then 1 else 0) +
      (if opponent_factor.available then 1 else 0) +
      (if weather_factor.available then 1 else 0)
  let availability_multiplier := 0.7 + ((available_factors : ℚ) / 5) * 0.3
  max 0 (min 1 (total_score * availability_multiplier))

/-- The decision/recommended-lap pair returned by
`AdvancedPitDecisionEngine._make_decision` (the reasoning strings are
output-only and omitted). -/
structure DecisionResult where
  decision : String
  recommended_lap : Option ℤ
deriving DecidableEq

/-- Embeds `AdvancedPitDecisionEngine._make_decision`
(`pit_decision_engine.py` lines 506-574): critical degradation short-circuits
to `PIT_NOW` before any confidence threshold; an integer `best_window_lap`
of 0 is falsy in Python and falls back to `current_lap + 2`. -/
def make_decision (degradation_factor : DegFactor) (traffic_factor : TrafficFactor)
    (confidence_score : ℚ) (current_lap : ℤ) : DecisionResult :=
  let pit_now_threshold : ℚ := 0.75
  let pit_later_threshold : ℚ := 0.55
  if degradation_factor.urgency = "critical" then ⟨"PIT_NOW", some current_lap⟩
  else if pit_now_threshold ≤ confidence_score then ⟨"PIT_NOW", some current_lap⟩
  else if pit_later_threshold ≤ confidence_score then
    match traffic_factor.best_window_lap with
    | some best_traffic_lap =>
      if best_traffic_lap ≠ 0 ∧ best_traffic_lap ≤ current_lap + 5 then
        ⟨"PIT_LATER", some best_traffic_lap⟩
      else ⟨"PIT_LATER", some (current_lap + 2)⟩
    | none => ⟨"PIT_LATER", some (current_lap + 2)⟩
  else ⟨"EXTEND_STINT", none⟩

/-- The fields of the `make_pit_decision` response that the claims constrain
(the factor breakdown and reasoning lists are human-readable output built
from the same factor records). -/
structure PitDecisionOut where
  decision : String
  confidence : ℚ
  recommended_lap : Option ℤ
deriving DecidableEq

/-- The pure pipeline of `AdvancedPitDecisionEngine.make_pit_decision`
(`pit_decision_engine.py` lines 39-149), given a resolution `calcDeg` of the
`calculate_degradation` attribute: the five factor analyses, the confidence
score, and the final decision. -/
def make_pit_decision_core (calcDeg : ℤ → String → ℚ → ℚ)
    (current_lap total_laps tire_age : ℤ) (tire_compound : String)
    (current_position : ℤ) (degradation_rate traffic_density : ℚ)
    (race_twin : Option RaceTwinDict) (driver_twin : Option TwinRec)
    (opponent_data : Option (List (Option OpponentDict)))
    (weather_data : Option WeatherDict) : PitDecisionOut :=
  let degradation_factor := analyze_degradation_factor calcDeg tire_age
    tire_compound degradation_rate current_lap total_laps driver_twin
  let traffic_factor := analyze_traffic_factor current_position traffic_density
    current_lap total_laps
  let race_twin_factor := analyze_race_twin_factor race_twin current_lap
  let opponent_factor := analyze_opponent_factor opponent_data tire_age
  let weather_factor := analyze_weather_factor weather_data
  let confidence_score := calculate_confidence_score degradation_factor
    traffic_factor race_twin_factor opponent_factor weather_factor
  let decision_result := make_decision degradation_factor traffic_factor
    confidence_score current_lap
  ⟨decision_result.decision, confidence_score, decision_result.recommended_lap⟩

/-- Embeds `AdvancedPitDecisionEngine.make_pit_decision` as shipped: the very
first factor analysis calls `calculate_degradation` on the
`grracing/degradation.py` model (line 163), so the resolution of that
attribute decides between an `AttributeError` and the pure pipeline. -/
def make_pit_decision (calcDeg : Option (ℤ → String → ℚ → ℚ))
    (current_lap total_laps tire_age : ℤ) (tire_compound : String)
    (current_position : ℤ) (degradation_rate traffic_density : ℚ)
    (race_twin : Option RaceTwinDict) (driver_twin : Option TwinRec)
    (opponent_data : Option (List (Option OpponentDict)))
    (weather_data : Option WeatherDict) : Except String PitDecisionOut :=
  match calcDeg with
  | none =>
    Except.error
      "AttributeError: TireDegradationModel object has no attribute calculate_degradation"
  | some f =>
    Except.ok (make_pit_decision_core f current_lap total_laps tire_age
      tire_compound current_position degradation_rate traffic_density race_twin
      driver_twin opponent_data weather_data)

/-! ## `RaceTwinSimulator._analyze_finishing_positions` -/

/-- The 1-based positions at which driver `d` appears, accumulated across the
simulation results in iteration order — the `driver_positions[driver_id]`
list built by the `enumerate(result['finishing_order'], 1)` loop
(`race_twin.py` lines 464-470). -/
def positionsOf (simulation_results : List SimResult) (d : String) : List ℕ :=
  simulation_results.flatMap (fun r =>
    r.finishing_order.enum.filterMap (fun p =>
      if p.2 = d then some (p.1 + 1) else none))

/-- The driver ids in the key order of the `driver_positions` dict: order of
first appearance across the iterated results. -/
def driversInOrder (simulation_results : List SimResult) : List String :=
  simulation_results.foldl (fun acc r =>
    r.finishing_order.foldl (fun acc2 d => if d ∈ acc2 then acc2 else acc2 ++ [d]) acc) []

/-- `Counter.most_common(1)[0][0]`: the maximal count, ties resolved in favour
of the first-encountered element. -/
def mostCommonPosition (positions : List ℕ) : ℕ :=
  match firstDedup positions with
  | [] => 0
  | h :: t => t.foldl (fun best p =>
      if positions.count best < positions.count p then p else best) h

/-- One entry of the `finishing_probs` list of
`_analyze_finishing_positions`. -/
structure FinishingProb where
  driver_id : String
  position : ℕ
  probability : ℚ
  position_distribution : List (ℕ × ℚ)
deriving DecidableEq

/-- Embeds `RaceTwinSimulator._analyze_finishing_positions` (`race_twin.py`
lines 459-496): per driver, the `Counter` over its finishing positions, the
most likely position, and the distribution `{pos: count / total_sims}`;
finally a stable sort by most likely position. -/
def analyze_finishing_positions (simulation_results : List SimResult) :
    List FinishingProb :=
  let total_sims := simulation_results.length
  let finishing_probs := (driversInOrder simulation_results).map (fun d =>
    let positions := positionsOf simulation_results d
    let most_common_pos := mostCommonPosition positions
    FinishingProb.mk d most_common_pos
      ((positions.count most_common_pos : ℚ) / (total_sims : ℚ))
      ((firstDedup positions).map (fun p =>
        (p, (positions.count p : ℚ) / (total_sims : ℚ)))))
  finishing_probs.insertionSort (fun a b => a.position ≤ b.position)

/-! ## Helper lemmas -/

theorem pyClip_le_hi {x lo hi : ℚ} (h : lo ≤ hi) : pyClip x lo hi ≤ hi :=
  max_le h (min_le_right x hi)

theorem lo_le_pyClip {x lo hi : ℚ} : lo ≤ pyClip x lo hi :=
  le_max_left lo (min x hi)

theorem foldl_min_le {r : List ℚ} {a : ℚ} :
    (r.foldl min a ≤ a) ∧ ∀ x ∈ r, r.foldl min a ≤ x := by
  induction r generalizing a with
  | nil => exact ⟨le_refl a, by intro x hx; cases hx⟩
  | cons b rest2 ih =>
    simp only [List.foldl_cons]
    refine ⟨le_trans (ih (a := min a b)).1 (min_le_left a b), ?_⟩
    intro x hx
    rcases List.mem_cons.mp hx with hx | hx
    · subst hx
      exact le_trans (ih (a := min a x)).1 (min_le_right a x)
    · exact (ih (a := min a b)).2 x hx

theorem listMinQ_le {l : List ℚ} {t : ℚ} (ht : t ∈ l) : listMinQ l ≤ t := by
  match l with
  | [] => cases ht
  | h :: rest =>
    rcases List.mem_cons.mp ht with h1 | h1
    · exact h1 ▸ (foldl_min_le (r := rest) (a := h)).1
    · exact (foldl_min_le (r := rest) (a := h)).2 t h1

theorem sum_nonneg_all_zero {l : List ℚ} (hnn : ∀ t ∈ l, 0 ≤ t) (hs : l.sum = 0) :
    ∀ t ∈ l, t = 0 := by
  induction l with
  | nil => intro t ht; cases ht
  | cons a rest ih =>
    have ha : 0 ≤ a := hnn a (List.mem_cons_self a rest)
    have hrest : 0 ≤ rest.sum := List.sum_nonneg (fun t ht => hnn t (List.mem_cons_of_mem a ht))
    have hsum : a + rest.sum = 0 := by simpa using hs
    have ha0 : a = 0 := le_antisymm (by linarith) ha
    have hr0 : rest.sum = 0 := by linarith
    intro t ht
    rcases List.mem_cons.mp ht with h | h
    · exact h ▸ ha0
    · exact ih (fun x hx => hnn x (List.mem_cons_of_mem a hx)) hr0 t h

theorem min_zero_mean_zero_all_zero {l : List ℚ} (hne : l ≠ [])
    (hmin : listMinQ l = 0) (hmean : listMean l = 0) : ∀ t ∈ l, t = 0 := by
  have hlen : (l.length : ℚ) ≠ 0 := by
    simpa using (List.length_pos.mpr hne).ne'
  have hsum : l.sum = 0 := by
    have := hmean
    unfold listMean at this
    field_simp at this
    exact this
  exact sum_nonneg_all_zero (fun t ht => hmin ▸ listMinQ_le ht) hsum

/-! ## Claims C6, C8, C9, C10 -/

/-- C6, counterexample: at `attacker_speed = defender_speed = 200` (so
`defender_speed > 0`), positions 1 and 2, attacker tires 30 laps old against
fresh defender tires, sector S2, the code returns 0.05 while the spec's
formula (tire-age advantage clamped below at 0) returns 0.35: the claim is
false as stated. -/
theorem claim_C6_counterexample :
    (0 : ℚ) < 200 ∧ (1 : ℤ) ≠ 2 ∧
    calculate_overtake_probability 200 200 1 2 30 0 "S2" ≠
      spec_overtake_probability 200 200 1 2 30 0 "S2" := by
  refine ⟨by norm_num, by decide, ?_⟩
  norm_num +decide [calculate_overtake_probability, spec_overtake_probability,
    speed_advantage, position_proximity, tire_age_advantage,
    overtake_sector_factor, pyClip, inf_eq_min, sup_eq_max, min_def, max_def]

/-- C6, amended: for every input with `defender_speed > 0` and distinct
positions, `calculate_overtake_probability` returns the spec's clipped
formula with `tire_age_advantage = min((defender_age − attacker_age)/20,
0.5)` — i.e. the spec's formula except that the tire-age term has no lower
clamp at 0. -/
theorem claim_C6_amended (attacker_speed defender_speed : ℚ)
    (attacker_position defender_position attacker_tire_age defender_tire_age : ℤ)
    (sector : String) (h1 : 0 < defender_speed)
    (h2 : attacker_position ≠ defender_position) :
    calculate_overtake_probability attacker_speed defender_speed attacker_position
      defender_position attacker_tire_age defender_tire_age sector =
    amended_overtake_probability attacker_speed defender_speed attacker_position
      defender_position attacker_tire_age defender_tire_age sector := by
  simp only [calculate_overtake_probability, amended_overtake_probability,
    speed_advantage, position_proximity, tire_age_advantage,
    overtake_sector_factor, pyClip, h1, h2, if_true, ne_eq,
    not_false_eq_true, if_pos]
  rw [min_comm (1 : ℚ)]
  congr 2
  ring

/-- C6, witness for the amended claim at a concrete input. -/
theorem claim_C6_amended_witness :
    calculate_overtake_probability 200 190 3 4 5 12 "S1" =
    amended_overtake_probability 200 190 3 4 5 12 "S1" :=
  claim_C6_amended 200 190 3 4 5 12 "S1" (by norm_num) (by decide)

/-- C8: the stored simulation count `max(100, min(num_simulations, 500))` is
always in `[100, 500]`; a request of 50 yields 100, a request of 1000 yields
500, and any requested value already in `[100, 500]` is kept unchanged. -/
theorem claim_C8 (n : ℤ) :
    100 ≤ race_twin_num_simulations n ∧ race_twin_num_simulations n ≤ 500 ∧
    race_twin_num_simulations 50 = 100 ∧ race_twin_num_simulations 1000 = 500 ∧
    (100 ≤ n → n ≤ 500 → race_twin_num_simulations n = n) := by
  unfold race_twin_num_simulations
  refine ⟨le_max_left _ _,
    max_le (by norm_num) (le_trans (min_le_right _ _) (by norm_num)), ?_, ?_, ?_⟩
  · rw [min_eq_left (by norm_num), max_eq_left (by norm_num)]
  · rw [min_eq_right (by norm_num), max_eq_right (by norm_num)]
  · intro ha hb
    rw [min_eq_left hb, max_eq_right ha]

/-- C8, witness: a request inside the range is kept. -/
theorem claim_C8_witness : race_twin_num_simulations 250 = 250 :=
  (claim_C8 250).2.2.2.2 (by norm_num) (by norm_num)

/-- C9: with every other argument fixed, the `time_lost` returned by
`simulate_pit_rejoin` is strictly increasing in `traffic_density` (the
rejoin penalty `1.5·(1 + 0.5·density)·sector_mult` has a positive sector
multiplier for every sector string). -/
theorem claim_C9 (driver_id : String) (current_position pit_lap : ℤ)
    (pit_time average_lap_time : ℚ) (total_cars : ℤ) (sector_at_pit : String)
    (td1 td2 : ℚ) (h : td1 < td2) :
    (simulate_pit_rejoin driver_id current_position pit_lap pit_time
      average_lap_time td1 total_cars sector_at_pit).time_lost <
    (simulate_pit_rejoin driver_id current_position pit_lap pit_time
      average_lap_time td2 total_cars sector_at_pit).time_lost := by
  simp only [simulate_pit_rejoin, calculate_rejoin_time_loss]
  split_ifs <;> nlinarith

/-- C9, witness: the claim's instance — `traffic_density = 0.0` loses
strictly less time than `traffic_density = 0.9`, all else equal. -/
theorem claim_C9_witness :
    (simulate_pit_rejoin "driver_1" 5 20 22 95 0 20 "S2").time_lost <
    (simulate_pit_rejoin "driver_1" 5 20 22 95 (9/10) 20 "S2").time_lost :=
  claim_C9 "driver_1" 5 20 22 95 20 "S2" 0 (9/10) (by norm_num)

/-- C10: the overtake model is total where the spec's formula is undefined —
`defender_speed ≤ 0` makes the speed-advantage term 0 instead of dividing by
zero, equal positions make the proximity term 0 instead of dividing by zero,
and the result is always clamped into `[0, 1]`. -/
theorem claim_C10 (attacker_speed defender_speed : ℚ)
    (attacker_position defender_position attacker_tire_age defender_tire_age : ℤ)
    (sector : String) :
    (defender_speed ≤ 0 → speed_advantage attacker_speed defender_speed = 0) ∧
    (attacker_position = defender_position →
      position_proximity attacker_position defender_position = 0) ∧
    0 ≤ calculate_overtake_probability attacker_speed defender_speed
      attacker_position defender_position attacker_tire_age defender_tire_age sector ∧
    calculate_overtake_probability attacker_speed defender_speed attacker_position
      defender_position attacker_tire_age defender_tire_age sector ≤ 1 := by
  refine ⟨?_, ?_, le_max_left _ _, max_le (by norm_num) (min_le_left _ _)⟩
  · intro hds
    unfold speed_advantage
    rw [if_neg (not_lt.mpr hds)]
  · intro hpos
    unfold position_proximity
    rw [if_neg (by simpa using hpos)]

/-- C10, witness at a zero defender speed and equal positions. -/
theorem claim_C10_witness :
    speed_advantage 150 0 = 0 ∧ position_proximity 3 3 = 0 ∧
    0 ≤ calculate_overtake_probability 150 0 3 3 10 10 "S2" ∧
    calculate_overtake_probability 150 0 3 3 10 10 "S2" ≤ 1 := by
  have h := claim_C10 150 0 3 3 10 10 "S2"
  exact ⟨h.1 (by norm_num), h.2.1 rfl, h.2.2.1, h.2.2.2⟩

/-! ## Claim C5 -/

theorem clamp_mul_le (x hi mult bound : ℚ) (hhi : 0 ≤ hi) (hm : 0 ≤ mult)
    (hb : hi * mult ≤ bound) : min (max 0 x) hi * mult ≤ bound := by
  have h1 : min (max 0 x) hi ≤ hi := min_le_right _ _
  have h2 : 0 ≤ min (max 0 x) hi := le_min (le_max_left _ _) hhi
  nlinarith

/-- C5: the fitted degradation rate is clamped to `[0, 0.01]` first and
multiplied by the compound factor only afterwards.  Concretely, the lap-time
list `[100×5, 200×5]` on the fit-failure fallback with compound SOFT returns
rate 0.015 > 0.01, while for every input the SOFT rate stays at most 0.015
and the MEDIUM and HARD rates never exceed 0.01. -/
theorem claim_C5 :
    (calc_degradation_profile_rate
        [100, 100, 100, 100, 100, 200, 200, 200, 200, 200] "SOFT" none = 3 / 200 ∧
      (1 : ℚ) / 100 < 3 / 200) ∧
    (∀ lap_times fit, calc_degradation_profile_rate lap_times "SOFT" fit ≤ 3 / 200) ∧
    (∀ lap_times fit, calc_degradation_profile_rate lap_times "MEDIUM" fit ≤ 1 / 100) ∧
    (∀ lap_times fit, calc_degradation_profile_rate lap_times "HARD" fit ≤ 1 / 100) := by
  have hsoft : twin_compound_multiplier "SOFT" = 1.5 := by
    norm_num +decide [twin_compound_multiplier]
  have hmed : twin_compound_multiplier "MEDIUM" = 1 := by
    norm_num +decide [twin_compound_multiplier]
  have hhard : twin_compound_multiplier "HARD" = 0.7 := by
    norm_num +decide [twin_compound_multiplier]
  refine ⟨⟨?_, by norm_num⟩, ?_, ?_, ?_⟩
  · simp only [calc_degradation_profile_rate, hsoft]
    norm_num [listMean, min_def, max_def]
  all_goals
    intro lap_times fit
    simp only [calc_degradation_profile_rate, hsoft, hmed, hhard]
    split_ifs with h1
    · norm_num
    all_goals apply clamp_mul_le <;> norm_num

/-! ## Claim C7 -/

theorem calc_consistency_index_bounds (sqrtFn : ℚ → ℚ) (lap_times : List ℚ) :
    0 ≤ calc_consistency_index sqrtFn lap_times ∧
    calc_consistency_index sqrtFn lap_times ≤ 1 := by
  unfold calc_consistency_index
  by_cases h1 : lap_times.isEmpty ∨ lap_times.length < 2
  · rw [if_pos h1]
    norm_num
  · rw [if_neg h1]
    by_cases h2 : listMean lap_times = 0
    · rw [if_pos h2]
      norm_num
    · rw [if_neg h2]
      exact ⟨lo_le_pyClip, pyClip_le_hi (by norm_num)⟩

theorem calc_twin_confidence_bounds (lap_count : ℕ) :
    0 ≤ calc_twin_confidence lap_count ∧ calc_twin_confidence lap_count ≤ 1 := by
  unfold calc_twin_confidence
  split_ifs <;> constructor <;> norm_num

/-- C7, amended: for every generated twin whose lap-time list is not an
all-zero list of 5 or more laps, `pace_vector` is a number in `[-0.1, 0.1]`;
`consistency_index ∈ [0, 1]` and `confidence ∈ [0, 1]` hold for every input
and every square-root function.  (The all-zero case is excluded because there
the pace division is the float `0/0`, i.e. NaN — see the counterexample.) -/
theorem claim_C7_amended (sqrtFn : ℚ → ℚ) (lap_times : List ℚ)
    (h : ¬ (5 ≤ lap_times.length ∧ ∀ t ∈ lap_times, t = 0)) :
    (∃ p : ℚ, (generate_driver_twin_core sqrtFn lap_times).pace_vector = some p ∧
      -(1 / 10) ≤ p ∧ p ≤ 1 / 10) ∧
    0 ≤ (generate_driver_twin_core sqrtFn lap_times).consistency_index ∧
    (generate_driver_twin_core sqrtFn lap_times).consistency_index ≤ 1 ∧
    0 ≤ (generate_driver_twin_core sqrtFn lap_times).confidence ∧
    (generate_driver_twin_core sqrtFn lap_times).confidence ≤ 1 := by
  unfold generate_driver_twin_core
  by_cases hlen : lap_times.length < 5
  · simp only [hlen, if_true]
    exact ⟨⟨0, rfl, by norm_num, by norm_num⟩, by norm_num, by norm_num,
      by norm_num, by norm_num⟩
  · simp only [hlen, if_false]
    have hlen5 : 5 ≤ lap_times.length := not_lt.mp hlen
    refine ⟨?_, (calc_consistency_index_bounds sqrtFn lap_times).1,
      (calc_consistency_index_bounds sqrtFn lap_times).2,
      (calc_twin_confidence_bounds lap_times.length).1,
      (calc_twin_confidence_bounds lap_times.length).2⟩
    unfold calc_pace_vector
    have hne : ¬ (lap_times.isEmpty ∨ lap_times.length < 2) := by
      rintro (he | h2)
      · rw [List.isEmpty_iff] at he
        rw [he] at hlen5
        simp at hlen5
      · omega
    rw [if_neg hne]
    by_cases hbest : listMinQ lap_times = 0
    · rw [if_pos hbest]
      by_cases hnum : listMean lap_times - listMinQ lap_times = 0
      · exfalso
        have hnil : lap_times ≠ [] := by
          intro hn
          rw [hn] at hlen5
          simp at hlen5
        have hmean : listMean lap_times = 0 := by
          rw [hbest] at hnum
          linarith
        exact h ⟨hlen5, min_zero_mean_zero_all_zero hnil hbest hmean⟩
      · rw [if_neg hnum]
        exact ⟨_, rfl, lo_le_pyClip, pyClip_le_hi (by norm_num)⟩
    · rw [if_neg hbest]
      exact ⟨_, rfl, lo_le_pyClip, pyClip_le_hi (by norm_num)⟩

/-- C7, witness for the amended claim: five identical 95-second laps. -/
theorem claim_C7_amended_witness :
    (∃ p : ℚ, (generate_driver_twin_core (fun q => q)
        [95, 95, 95, 95, 95]).pace_vector = some p ∧ -(1 / 10) ≤ p ∧ p ≤ 1 / 10) ∧
    0 ≤ (generate_driver_twin_core (fun q => q) [95, 95, 95, 95, 95]).consistency_index ∧
    (generate_driver_twin_core (fun q => q) [95, 95, 95, 95, 95]).consistency_index ≤ 1 ∧
    0 ≤ (generate_driver_twin_core (fun q => q) [95, 95, 95, 95, 95]).confidence ∧
    (generate_driver_twin_core (fun q => q) [95, 95, 95, 95, 95]).confidence ≤ 1 :=
  claim_C7_amended (fun q => q) [95, 95, 95, 95, 95] (by norm_num)

/-- C7, counterexample: five zero lap times (5 laps, so the default-twin
branch is not taken) make `(avg − best)/best` the float `0/0`, a NaN that
`np.clip` propagates into the returned `pace_vector` — so the claim's
`pace_vector ∈ [-0.1, 0.1]` fails for this input: the NaN (modelled `none`)
is no rational in the interval. -/
theorem claim_C7_counterexample :
    (generate_driver_twin_core (fun q => q) [0, 0, 0, 0, 0]).pace_vector = none ∧
    ¬ ∃ p : ℚ, (generate_driver_twin_core (fun q => q) [0, 0, 0, 0, 0]).pace_vector = some p ∧
      -(1 / 10) ≤ p ∧ p ≤ 1 / 10 := by
  have h1 : (generate_driver_twin_core (fun q => q) [0, 0, 0, 0, 0]).pace_vector = none := by
    norm_num [generate_driver_twin_core, calc_pace_vector, listMinQ, listMean]
  refine ⟨h1, ?_⟩
  rintro ⟨p, hp, -, -⟩
  rw [h1] at hp
  exact Option.noConfusion hp

/-! ## Claims C1 and C3 -/

/-- C1: as shipped, every call to `make_pit_decision` raises.  The engine's
first step constructs the `TireDegradationModel` imported from
`grracing/degradation.py` and calls `calculate_degradation` on it
(`pit_decision_engine.py` lines 162-166); that class defines no such method,
so the attribute lookup fails and the call dies with an `AttributeError`
before any factor, confidence or decision is produced — for every input
combination, with or without the optional arguments. -/
theorem claim_C1_attribute_error (current_lap total_laps tire_age : ℤ)
    (tire_compound : String) (current_position : ℤ)
    (degradation_rate traffic_density : ℚ) (race_twin : Option RaceTwinDict)
    (driver_twin : Option TwinRec)
    (opponent_data : Option (List (Option OpponentDict)))
    (weather_data : Option WeatherDict) :
    make_pit_decision resolved_calculate_degradation current_lap total_laps
      tire_age tire_compound current_position degradation_rate traffic_density
      race_twin driver_twin opponent_data weather_data =
    Except.error
      "AttributeError: TireDegradationModel object has no attribute calculate_degradation" := by
  have hres : resolved_calculate_degradation = none := by
    norm_num +decide [resolved_calculate_degradation,
      grracing_degradation_TireDegradationModel_methods]
  rw [hres]
  rfl

theorem make_decision_critical (df : DegFactor) (tf : TrafficFactor)
    (confidence_score : ℚ) (current_lap : ℤ) (h : df.urgency = "critical") :
    (make_decision df tf confidence_score current_lap).decision = "PIT_NOW" := by
  unfold make_decision
  rw [if_pos h]

theorem analyze_degradation_factor_current (calcDeg : ℤ → String → ℚ → ℚ)
    (tire_age : ℤ) (tire_compound : String) (degradation_rate : ℚ)
    (current_lap total_laps : ℤ) (driver_twin : Option TwinRec) :
    (analyze_degradation_factor calcDeg tire_age tire_compound degradation_rate
      current_lap total_laps driver_twin).current_degradation =
    calcDeg tire_age tire_compound 25 := rfl

theorem analyze_degradation_factor_critical_iff (calcDeg : ℤ → String → ℚ → ℚ)
    (tire_age : ℤ) (tire_compound : String) (degradation_rate : ℚ)
    (current_lap total_laps : ℤ) (driver_twin : Option TwinRec) :
    (analyze_degradation_factor calcDeg tire_age tire_compound degradation_rate
        current_lap total_laps driver_twin).urgency = "critical" ↔
    (0.05 : ℚ) ≤ calcDeg tire_age tire_compound 25 := by
  unfold analyze_degradation_factor
  by_cases h : (0.05 : ℚ) ≤ calcDeg tire_age tire_compound 25
  · simp [h]
  · simp only [h, if_false]
    split_ifs <;> simp [h]

/-- C3: whenever the degradation factor's urgency comes out `critical` —
equivalently, the computed current degradation is at least 0.05 — the
decision pipeline returns `PIT_NOW`, before any confidence threshold and
regardless of every other factor.  Proved over the factor/decision logic with
`calculate_degradation` bound to the repository's only implementation of that
name (`grracing/models/tire_degradation.py`); the engine as shipped crashes
before reaching this logic (claim C1).  `_hlaps` excludes `total_laps = 0`,
where the Python traffic factor would divide by zero. -/
theorem claim_C3 (current_lap total_laps tire_age : ℤ) (tire_compound : String)
    (current_position : ℤ) (degradation_rate traffic_density : ℚ)
    (race_twin : Option RaceTwinDict) (driver_twin : Option TwinRec)
    (opponent_data : Option (List (Option OpponentDict)))
    (weather_data : Option WeatherDict)
    (_hlaps : total_laps ≠ 0)
    (hcrit : (analyze_degradation_factor models_calculate_degradation tire_age
        tire_compound degradation_rate current_lap total_laps driver_twin).urgency =
      "critical") :
    (make_pit_decision_core models_calculate_degradation current_lap total_laps
        tire_age tire_compound current_position degradation_rate traffic_density
        race_twin driver_twin opponent_data weather_data).decision = "PIT_NOW" ∧
    (0.05 : ℚ) ≤ (analyze_degradation_factor models_calculate_degradation tire_age
        tire_compound degradation_rate current_lap total_laps driver_twin).current_degradation := by
  constructor
  · exact make_decision_critical _ _ _ _ hcrit
  · rw [analyze_degradation_factor_current]
    exact (analyze_degradation_factor_critical_iff models_calculate_degradation
      tire_age tire_compound degradation_rate current_lap total_laps driver_twin).mp hcrit

/-- C3, witness: 25-lap-old MEDIUM tires give current degradation
`min(0.002·25, 0.1) = 0.05`, hence critical urgency, hence `PIT_NOW`. -/
theorem claim_C3_witness :
    (make_pit_decision_core models_calculate_degradation 10 50 25 "MEDIUM" 3
      (1/500) (3/10) none none none none).decision = "PIT_NOW" ∧
    (0.05 : ℚ) ≤ (analyze_degradation_factor models_calculate_degradation 25
      "MEDIUM" (1/500) 10 50 none).current_degradation :=
  claim_C3 10 50 25 "MEDIUM" 3 (1/500) (3/10) none none none none (by norm_num)
    ((analyze_degradation_factor_critical_iff models_calculate_degradation 25
      "MEDIUM" (1/500) 10 50 none).mpr
      (by norm_num +decide [models_calculate_degradation, min_def]))

/-! ## Claim C2: key preservation and the permutation property -/

theorem setEntry_map_fst {β : Type} (k : String) (f : β → β) (l : List (String × β)) :
    (setEntry k f l).map Prod.fst = l.map Prod.fst := by
  simp only [setEntry, List.map_map]
  congr 1
  funext p
  by_cases hp : p.1 = k <;> simp [hp]

theorem simulate_overtakes_keys {rng : ℕ → ℚ} {k : ℕ} {driver_id : String}
    {all_states : List (String × RaceStateRec)} {lap : ℤ}
    {res : List (String × RaceStateRec) × ℕ}
    (h : simulate_overtakes rng k driver_id all_states lap = Except.ok res) :
    res.1.map Prod.fst = all_states.map Prod.fst := by
  unfold simulate_overtakes at h
  split at h
  · exact Except.noConfusion h
  · split at h
    · cases h
      rfl
    · split at h
      · cases h
        rfl
      · split at h
        · exact Except.noConfusion h
        · split at h
          · exact Except.noConfusion h
          · simp only [] at h
            split at h
            · cases h
              simp [setEntry_map_fst]
            · cases h
              rfl

theorem step_driver_pit_keys (rng : ℕ → ℚ) (driver_id : String) (sp : Bool)
    (k2 : ℕ) (state1 : RaceStateRec) (lap : ℤ)
    (states1 : List (String × RaceStateRec)) (total_cars : ℤ) :
    (step_driver_pit rng driver_id sp k2 state1 lap states1 total_cars).1.map
      Prod.fst = states1.map Prod.fst := by
  unfold step_driver_pit
  split
  · simp [setEntry_map_fst]
  · rfl

theorem step_driver_rest_keys {calcDeg : Option (ℤ → String → ℚ → ℚ)}
    {rng : ℕ → ℚ} {total_laps : ℤ} {weather_data : Option WeatherDict}
    {pit_strategy_options : List StrategyRec} {total_cars : ℤ} {lap : ℤ}
    {driver_id : String} {states1 : List (String × RaceStateRec)} {k1 : ℕ}
    {res : List (String × RaceStateRec) × ℕ}
    (h : step_driver_rest calcDeg rng total_laps weather_data
      pit_strategy_options total_cars lap driver_id states1 k1 = Except.ok res) :
    res.1.map Prod.fst = states1.map Prod.fst := by
  unfold step_driver_rest at h
  split at h
  · exact Except.noConfusion h
  · split at h
    · exact Except.noConfusion h
    · try simp only [] at h
      split at h
      · exact Except.noConfusion h
      · try simp only [] at h
        rw [simulate_overtakes_keys h]
        exact step_driver_pit_keys _ _ _ _ _ _ _ _

theorem step_driver_keys {calcDeg : Option (ℤ → String → ℚ → ℚ)} {pow15 : ℚ → ℚ}
    {rng : ℕ → ℚ} {total_laps : ℤ} {weather_data : Option WeatherDict}
    {pit_strategy_options : List StrategyRec} {total_cars : ℤ} {lap : ℤ}
    {acc : List (String × RaceStateRec) × ℕ} {driver_id : String}
    {res : List (String × RaceStateRec) × ℕ}
    (h : step_driver calcDeg pow15 rng total_laps weather_data
      pit_strategy_options total_cars lap acc driver_id = Except.ok res) :
    res.1.map Prod.fst = acc.1.map Prod.fst := by
  unfold step_driver at h
  split at h
  · exact Except.noConfusion h
  · split at h
    · exact Except.noConfusion h
    · rw [step_driver_rest_keys h]
      exact setEntry_map_fst _ _ _

theorem foldlM_keys {f : (List (String × RaceStateRec) × ℕ) → String →
      Except String (List (String × RaceStateRec) × ℕ)}
    (hf : ∀ acc d res, f acc d = Except.ok res →
      res.1.map Prod.fst = acc.1.map Prod.fst) :
    ∀ (keys : List String) (acc res), keys.foldlM f acc = Except.ok res →
      res.1.map Prod.fst = acc.1.map Prod.fst := by
  intro keys
  induction keys with
  | nil =>
    intro acc res h
    rw [List.foldlM_nil] at h
    cases h
    rfl
  | cons d ds ih =>
    intro acc res h
    rw [List.foldlM_cons] at h
    cases hf1 : f acc d with
    | error e =>
      rw [hf1] at h
      exact Except.noConfusion h
    | ok a =>
      rw [hf1] at h
      simp only [bind, Except.bind] at h
      rw [ih a res h, hf acc d a hf1]

set_option maxRecDepth 8000 in
theorem step_lap_keys {calcDeg : Option (ℤ → String → ℚ → ℚ)} {pow15 : ℚ → ℚ}
    {rng : ℕ → ℚ} {total_laps : ℤ} {weather_data : Option WeatherDict}
    {pit_strategy_options : List StrategyRec} {total_cars : ℤ}
    {keyList : List String} {acc : List (String × RaceStateRec) × ℕ} {lap : ℤ}
    {res : List (String × RaceStateRec) × ℕ}
    (h : step_lap calcDeg pow15 rng total_laps weather_data pit_strategy_options
      total_cars keyList acc lap = Except.ok res) :
    res.1.map Prod.fst = acc.1.map Prod.fst := by
  unfold step_lap at h
  cases hf : keyList.foldlM (step_driver calcDeg pow15 rng total_laps
      weather_data pit_strategy_options total_cars lap) acc with
  | error e =>
    rw [hf] at h
    exact Except.noConfusion h
  | ok p =>
    rw [hf] at h
    cases h
    have h1 : p.1.map Prod.fst = acc.1.map Prod.fst :=
      foldlM_keys (fun a d r hr => step_driver_keys hr) keyList acc p hf
    simp only [List.map_map]
    rw [← h1]
    congr 1

theorem lap_foldlM_keys {calcDeg : Option (ℤ → String → ℚ → ℚ)} {pow15 : ℚ → ℚ}
    {rng : ℕ → ℚ} {total_laps : ℤ} {weather_data : Option WeatherDict}
    {pit_strategy_options : List StrategyRec} {total_cars : ℤ}
    {keyList : List String} :
    ∀ (laps : List ℤ) (acc res : List (String × RaceStateRec) × ℕ),
      laps.foldlM (step_lap calcDeg pow15 rng total_laps weather_data
        pit_strategy_options total_cars keyList) acc = Except.ok res →
      res.1.map Prod.fst = acc.1.map Prod.fst := by
  intro laps
  induction laps with
  | nil =>
    intro acc res h
    rw [List.foldlM_nil] at h
    cases h
    rfl
  | cons lap laps2 ih =>
    intro acc res h
    rw [List.foldlM_cons] at h
    cases hf1 : step_lap calcDeg pow15 rng total_laps weather_data
        pit_strategy_options total_cars keyList acc lap with
    | error e =>
      rw [hf1] at h
      exact Except.noConfusion h
    | ok a =>
      rw [hf1] at h
      simp only [bind, Except.bind] at h
      rw [ih a res h, step_lap_keys hf1]

theorem dictInsert_keys_of_not_mem {β : Type} {k : String} {v : β}
    {l : List (String × β)} (h : k ∉ l.map Prod.fst) :
    (dictInsert k v l).map Prod.fst = l.map Prod.fst ++ [k] := by
  unfold dictInsert
  rw [if_neg]
  · simp
  · simp only [List.any_eq_true, decide_eq_true_eq, not_exists, not_and]
    intro p hp hpk
    exact h (hpk ▸ List.mem_map_of_mem Prod.fst hp)

theorem initRaceStates_keys (drivers : List DriverRec)
    (driver_twins : List (String × TwinRec))
    (h : (drivers.map DriverRec.id).Nodup) :
    (initRaceStates drivers driver_twins).map Prod.fst = drivers.map DriverRec.id := by
  suffices aux : ∀ (ds : List DriverRec) (acc : List (String × RaceStateRec)),
      (∀ d ∈ ds, d.id ∉ acc.map Prod.fst) → (ds.map DriverRec.id).Nodup →
      (ds.foldl (fun a d => dictInsert d.id (initRaceState d driver_twins) a) acc).map
          Prod.fst = acc.map Prod.fst ++ ds.map DriverRec.id by
    simpa [initRaceStates] using aux drivers [] (by simp) h
  intro ds
  induction ds with
  | nil =>
    intro acc _ _
    simp
  | cons d rest ih =>
    intro acc hmem hnd
    simp only [List.foldl_cons, List.map_cons]
    have hd : d.id ∉ acc.map Prod.fst := hmem d (List.mem_cons_self d rest)
    have hnotrest : d.id ∉ rest.map DriverRec.id := (List.nodup_cons.mp hnd).1
    rw [ih (dictInsert d.id (initRaceState d driver_twins) acc) ?_ (List.nodup_cons.mp hnd).2,
      dictInsert_keys_of_not_mem hd]
    · simp
    · intro e he
      rw [dictInsert_keys_of_not_mem hd]
      simp only [List.mem_append, List.mem_singleton]
      rintro (h1 | h2)
      · exact hmem e (List.mem_cons_of_mem d he) h1
      · exact hnotrest (h2 ▸ List.mem_map_of_mem DriverRec.id he)

/-- Every `SimulationResult` an iteration returns has a `finishing_order`
that is a permutation of the (distinct) input driver ids. -/
theorem simulate_single_race_finishing_order_perm
    (calcDeg : Option (ℤ → String → ℚ → ℚ)) (pow15 : ℚ → ℚ) (rng : ℕ → ℚ)
    (drivers : List DriverRec) (driver_twins : List (String × TwinRec))
    (total_laps current_lap : ℤ) (weather_data : Option WeatherDict)
    (pit_strategy_options : List StrategyRec) (r : SimResult)
    (hids : (drivers.map DriverRec.id).Nodup)
    (h : simulate_single_race calcDeg pow15 rng drivers driver_twins total_laps
      current_lap weather_data pit_strategy_options = Except.ok r) :
    r.finishing_order.Perm (drivers.map DriverRec.id) := by
  unfold simulate_single_race at h
  try simp only [] at h
  cases hf : (intRange current_lap (total_laps + 1)).foldlM
      (step_lap calcDeg pow15 rng total_laps weather_data pit_strategy_options
        (drivers.length : ℤ) ((initRaceStates drivers driver_twins).map Prod.fst))
      (initRaceStates drivers driver_twins, 0) with
  | error e =>
    rw [hf] at h
    exact Except.noConfusion h
  | ok p =>
    rw [hf] at h
    cases h
    have hkeys : p.1.map Prod.fst = drivers.map DriverRec.id := by
      rw [lap_foldlM_keys (intRange current_lap (total_laps + 1)) _ p hf]
      exact initRaceStates_keys drivers driver_twins hids
    have hperm := (List.perm_insertionSort
      (fun a b : String × RaceStateRec => a.2.total_time ≤ b.2.total_time) p.1).map Prod.fst
    simpa [hkeys] using hperm

/-- C2: as shipped, any iteration that simulates at least one lap raises.
Concretely, one driver (with its twin) racing lap 1 of a 1-lap race: the lap
loop's dead-store call `self.degradation_model.calculate_degradation(...)`
(`race_twin.py` line 156) resolves against the `grracing/degradation.py`
class, which has no such method, so the iteration dies with an
`AttributeError` and never produces a `SimulationResult`.  (The module's own
demo at `race_twin.py` lines 695-725 crashes the same way.  For every run
that does return, `finishing_order` is a permutation of the driver ids —
`simulate_single_race_finishing_order_perm` above.) -/
theorem claim_C2_attribute_error :
    simulate_single_race resolved_calculate_degradation (fun q => q) (fun _ => 0)
      [⟨"d1", some 1, some 0, some "MEDIUM"⟩]
      [("d1", ⟨some 0, some 1, some ⟨some (1/500), some 95⟩⟩)] 1 1 none [] =
    Except.error
      "AttributeError: TireDegradationModel object has no attribute calculate_degradation" := by
  norm_num +decide [simulate_single_race, initRaceStates, initRaceState, dictInsert, intRange,
    step_lap, step_driver, step_driver_rest, step_driver_pit, apply_lap_time,
    lookupE, calculate_lap_time, getTwin,
    exponential_degradation, degradation_compound_coefficient, sectorOfLap, pyMod,
    calculate_traffic_penalty, setEntry, resolved_calculate_degradation,
    grracing_degradation_TireDegradationModel_methods,
    List.foldlM_cons, List.foldlM_nil, List.lookup, List.range_succ]


theorem foldl_firstDedup_nodup :
    ∀ (l : List ℕ) (acc : List ℕ), acc.Nodup →
      (l.foldl (fun a x => if x ∈ a then a else a ++ [x]) acc).Nodup := by
  intro l
  induction l with
  | nil => intro acc h; exact h
  | cons y t ih =>
    intro acc h
    simp only [List.foldl_cons]
    by_cases hy : y ∈ acc
    · rw [if_pos hy]
      exact ih acc h
    · rw [if_neg hy]
      refine ih _ ?_
      simp [List.nodup_append, h, hy]

theorem mem_foldl_firstDedup :
    ∀ (l : List ℕ) (acc : List ℕ) (x : ℕ),
      x ∈ l.foldl (fun a x => if x ∈ a then a else a ++ [x]) acc ↔ x ∈ acc ∨ x ∈ l := by
  intro l
  induction l with
  | nil => intro acc x; simp
  | cons y t ih =>
    intro acc x
    simp only [List.foldl_cons]
    by_cases hy : y ∈ acc
    · rw [if_pos hy, ih]
      constructor
      · rintro (h | h)
        · exact Or.inl h
        · exact Or.inr (List.mem_cons_of_mem y h)
      · rintro (h | h)
        · exact Or.inl h
        · rcases List.mem_cons.mp h with h1 | h1
          · exact Or.inl (h1 ▸ hy)
          · exact Or.inr h1
    · rw [if_neg hy, ih]
      simp only [List.mem_append, List.mem_singleton, List.mem_cons]
      tauto

theorem firstDedup_nodup (l : List ℕ) : (firstDedup l).Nodup :=
  foldl_firstDedup_nodup l [] List.nodup_nil

theorem mem_firstDedup (l : List ℕ) (x : ℕ) : x ∈ firstDedup l ↔ x ∈ l := by
  unfold firstDedup
  rw [mem_foldl_firstDedup]
  simp

theorem sum_count_firstDedup (l : List ℕ) :
    ((firstDedup l).map (fun p => l.count p)).sum = l.length := by
  have hperm : (firstDedup l).Perm l.dedup :=
    (List.perm_ext_iff_of_nodup (firstDedup_nodup l) l.nodup_dedup).mpr
      (fun a => by rw [mem_firstDedup, List.mem_dedup])
  rw [(hperm.map (fun p => l.count p)).sum_eq]
  exact List.sum_map_count_dedup_eq_length l

theorem length_filterMap_enumFrom (d : String) :
    ∀ (l : List String) (n : ℕ),
      ((l.enumFrom n).filterMap
        (fun p => if p.2 = d then some (p.1 + 1) else none)).length = l.count d := by
  intro l
  induction l with
  | nil => intro n; rfl
  | cons a t ih =>
    intro n
    simp only [List.enumFrom, List.filterMap_cons]
    by_cases ha : a = d
    · rw [if_pos ha]
      simp [List.count_cons, ha, ih]
    · rw [if_neg ha]
      simp [List.count_cons, ha, ih]

theorem positionsOf_length (simulation_results : List SimResult) (d : String)
    (h : ∀ r ∈ simulation_results, r.finishing_order.count d = 1) :
    (positionsOf simulation_results d).length = simulation_results.length := by
  unfold positionsOf
  induction simulation_results with
  | nil => rfl
  | cons r t ih =>
    simp only [List.flatMap_cons, List.length_append]
    have h1 : (r.finishing_order.enum.filterMap
        (fun p => if p.2 = d then some (p.1 + 1) else none)).length = 1 := by
      rw [List.enum_eq_enumFrom, length_filterMap_enumFrom d r.finishing_order 0]
      exact h r (List.mem_cons_self r t)
    rw [h1, ih (fun r2 hr2 => h r2 (List.mem_cons_of_mem r hr2))]
    simp only [List.length_cons]
    omega

theorem distribution_sum_eq (positions : List ℕ) (n : ℕ) :
    (((firstDedup positions).map
      (fun p => (p, (positions.count p : ℚ) / (n : ℚ)))).map Prod.snd).sum =
    (positions.length : ℚ) / (n : ℚ) := by
  rw [List.map_map]
  have h1 : (Prod.snd ∘ fun p => (p, (positions.count p : ℚ) / (n : ℚ))) =
      fun p => (positions.count p : ℚ) * ((n : ℚ))⁻¹ := by
    funext p
    simp [div_eq_mul_inv]
  rw [h1, List.sum_map_mul_right, div_eq_mul_inv]
  congr 1
  rw [← sum_count_firstDedup positions, Nat.cast_list_sum, List.map_map]
  rfl
/-- C4: for every driver entry produced by `_analyze_finishing_positions`
over a non-empty result list in which every simulation result names that
driver exactly once in its `finishing_order`, the `position_distribution`
values (position counts divided by the number of simulations) sum to 1
within a tolerance of 1e-6. -/

theorem claim_C4 (simulation_results : List SimResult) (e : FinishingProb)
    (hne : simulation_results ≠ [])
    (he : e ∈ analyze_finishing_positions simulation_results)
    (hcount : ∀ r ∈ simulation_results, r.finishing_order.count e.driver_id = 1) :
    |(e.position_distribution.map Prod.snd).sum - 1| ≤ 1 / 1000000 := by
  unfold analyze_finishing_positions at he
  try simp only [] at he
  have he2 := (List.perm_insertionSort
    (fun a b : FinishingProb => a.position ≤ b.position) _).mem_iff.mp he
  obtain ⟨d, hd, heq⟩ := List.mem_map.mp he2
  subst heq
  simp only [] at hcount ⊢
  rw [distribution_sum_eq, positionsOf_length simulation_results d hcount]
  rw [div_self]
  · norm_num
  · exact Nat.cast_ne_zero.mpr (Nat.pos_iff_ne_zero.mp (List.length_pos.mpr hne))

theorem claim_C4_witness :
    (∀ r ∈ ([⟨["a", "b"], [], []⟩, ⟨["b", "a"], [], []⟩] : List SimResult),
      r.finishing_order.count "a" = 1) ∧
    abs ((((⟨"a", 1, 1/2, [(1, 1/2), (2, 1/2)]⟩ : FinishingProb).position_distribution.map
        Prod.snd).sum - 1)) ≤ 1 / 1000000 := by
  refine ⟨by decide, ?_⟩
  refine claim_C4 [⟨["a", "b"], [], []⟩, ⟨["b", "a"], [], []⟩]
    ⟨"a", 1, 1/2, [(1, 1/2), (2, 1/2)]⟩ (by decide) ?_ (by decide)
  norm_num +decide [analyze_finishing_positions, driversInOrder, positionsOf,
    mostCommonPosition, firstDedup, List.insertionSort, List.orderedInsert,
    List.enum, List.enumFrom, List.flatMap, List.filterMap, List.count,
    List.countP, List.countP.go, cond, show (2 == 1) = false from rfl,
    show (1 == 2) = false from rfl]
